import Mathlib

/-!
A shallow embedding of the PSCI service of the m1n1-based hypervisor:
the final `hv_psci.c` variant, its header `hv_psci.h`, and the SMC branch of
`hv_exc.c`.  C global arrays become `List`s inside an explicit `PsciState`
record; machine inputs read by the code (the calling core's index as computed
by `hv_psci_get_core_position`, the `ISR_EL1` read, ADT-derived platform
constants) are passed in an explicit `Env` record; external side effects
(spinlocks, WFI, SEV, MMIO writes, entering deep sleep) are recorded as an
explicit trace of `Event`s.  Unsigned C arithmetic is `Nat` with explicit
`% 2 ^ 32` / `% 2 ^ 64` where wrap-around can occur.  A C `panic` or a failed
`assert` becomes a `Res.panicked` result.  Cache-maintenance calls
(`dc_civac_range` and friends) have no functional effect in this single-copy
memory model and are elided.  C loops whose counter does not decrease
structurally are written with an explicit `fuel` argument, initialised by the
caller to a bound that cannot run out before the kept loop condition fails,
so every definition reduces by structural recursion.
-/

namespace HvPsci

/-- `PSCI_CPU_POWER_LEVEL` from hv_psci.h. -/
def PSCI_CPU_POWER_LEVEL : Nat := 0

/-- `PSCI_CLUSTER_POWER_LEVEL` from hv_psci.h. -/
def PSCI_CLUSTER_POWER_LEVEL : Nat := 1

/-- `PSCI_MAX_POWER_LEVEL` from hv_psci.h. -/
def PSCI_MAX_POWER_LEVEL : Nat := 2

/-- `PSCI_INVALID_LEVEL` from hv_psci.h. -/
def PSCI_INVALID_LEVEL : Nat := 3

/-- `PSCI_ON_STATE` from hv_psci.h. -/
def PSCI_ON_STATE : Nat := 0

/-- `PSCI_IDLE_STANDBY_STATE` from hv_psci.h. -/
def PSCI_IDLE_STANDBY_STATE : Nat := 1

/-- `PSCI_OFF_STATE` from hv_psci.h. -/
def PSCI_OFF_STATE : Nat := 2

/-- `PSCI_MAX_RETENTION_STATE` from hv_psci.h. -/
def PSCI_MAX_RETENTION_STATE : Nat := 1

/-- `PSCI_MAX_OFF_STATE` from hv_psci.h. -/
def PSCI_MAX_OFF_STATE : Nat := 2

/-- `PSCI_STATE_VALID_MASK` from hv_psci.h. -/
def PSCI_STATE_VALID_MASK : Nat := 0xB0000000

/-- `PSCI_STATE_TYPE_MASK` from hv_psci.h. -/
def PSCI_STATE_TYPE_MASK : Nat := 0x1

/-- `PSCI_STATE_TYPE_SHIFT` from hv_psci.h. -/
def PSCI_STATE_TYPE_SHIFT : Nat := 30

/-- `PSCI_STATE_ID_MASK` from hv_psci.h. -/
def PSCI_STATE_ID_MASK : Nat := 0xFFFFFFF

/-- `PLAT_LOCAL_PSTATE_WIDTH` from hv_psci.h. -/
def PLAT_LOCAL_PSTATE_WIDTH : Nat := 4

/-- `PLAT_LOCAL_PSTATE_MASK = (1 << PLAT_LOCAL_PSTATE_WIDTH) - 1` from hv_psci.h. -/
def PLAT_LOCAL_PSTATE_MASK : Nat := (1 <<< PLAT_LOCAL_PSTATE_WIDTH) - 1

/-- `NUM_SYSTEMS_ACTIVE` from hv_psci.h. -/
def NUM_SYSTEMS_ACTIVE : Nat := 1

/-- `MAX_CPUS` (from m1n1's smp.h; it is 24, matching the 24-wide
`psci_requested_local_power_states` rows declared in hv_psci.c). -/
def MAX_CPUS : Nat := 24

/-- Affinity states (`affinity_info_state_t`): `AFFINITY_STATE_ON`. -/
def AFFINITY_STATE_ON : Nat := 0

/-- `AFFINITY_STATE_OFF` from `affinity_info_state_t`. -/
def AFFINITY_STATE_OFF : Nat := 1

/-- `STATE_TYPE_RUN` from `platform_local_state_type_t`. -/
def STATE_TYPE_RUN : Nat := 0

/-- `STATE_TYPE_RETN` from `platform_local_state_type_t`. -/
def STATE_TYPE_RETN : Nat := 1

/-- `STATE_TYPE_OFF` from `platform_local_state_type_t`. -/
def STATE_TYPE_OFF : Nat := 2

/-- PSCI return codes from hv_psci.h, as signed integers. -/
def PSCI_STATUS_SUCCESS : Int := 0

/-- `PSCI_STATUS_NOT_SUPPORTED` from hv_psci.h. -/
def PSCI_STATUS_NOT_SUPPORTED : Int := -1

/-- `PSCI_STATUS_INVALID_PARAMETERS` from hv_psci.h. -/
def PSCI_STATUS_INVALID_PARAMETERS : Int := -2

/-- `PSCI_STATUS_OPERATION_DENIED` from hv_psci.h. -/
def PSCI_STATUS_OPERATION_DENIED : Int := -3

/-- `PSCI_GET_VERSION_FUNCTION_ID` from hv_psci.h. -/
def PSCI_GET_VERSION_FUNCTION_ID : Nat := 0x84000000

/-- `PSCI_SUSPEND_CPU_ARM32_FUNCTION_ID` from hv_psci.h. -/
def PSCI_SUSPEND_CPU_ARM32_FUNCTION_ID : Nat := 0x84000001

/-- `PSCI_CPU_OFF_FUNCTION_ID` from hv_psci.h. -/
def PSCI_CPU_OFF_FUNCTION_ID : Nat := 0x84000002

/-- `PSCI_CPU_ON_ARM32_FUNCTION_ID` from hv_psci.h. -/
def PSCI_CPU_ON_ARM32_FUNCTION_ID : Nat := 0x84000003

/-- `PSCI_SYSTEM_POWEROFF_FUNCTION_ID` from hv_psci.h. -/
def PSCI_SYSTEM_POWEROFF_FUNCTION_ID : Nat := 0x84000008

/-- `PSCI_SYSTEM_RESET_FUNCTION_ID` from hv_psci.h. -/
def PSCI_SYSTEM_RESET_FUNCTION_ID : Nat := 0x84000009

/-- `PSCI_FEATURES_FUNCTION_ID` from hv_psci.h. -/
def PSCI_FEATURES_FUNCTION_ID : Nat := 0x8400000A

/-- `PSCI_MEM_PROTECT_FUNCTION_ID` from hv_psci.h. -/
def PSCI_MEM_PROTECT_FUNCTION_ID : Nat := 0x84000013

/-- `PSCI_MEM_CHECK_RANGE_ARM32_FUNCTION_ID` from hv_psci.h. -/
def PSCI_MEM_CHECK_RANGE_ARM32_FUNCTION_ID : Nat := 0x84000014

/-- `PSCI_SUSPEND_CPU_ARM64_FUNCTION_ID` from hv_psci.h. -/
def PSCI_SUSPEND_CPU_ARM64_FUNCTION_ID : Nat := 0xC4000001

/-- `PSCI_CPU_ON_ARM64_FUNCTION_ID` from hv_psci.h. -/
def PSCI_CPU_ON_ARM64_FUNCTION_ID : Nat := 0xC4000003

/-- `PSCI_AFFINITY_INFO_ARM64_FUNCTION_ID` from hv_psci.h. -/
def PSCI_AFFINITY_INFO_ARM64_FUNCTION_ID : Nat := 0xC4000004

/-- `PSCI_MIG_ARM64_FUNCTION_ID` from hv_psci.h. -/
def PSCI_MIG_ARM64_FUNCTION_ID : Nat := 0xC4000005

/-- `PSCI_MIG_INFO_UP_CPU_ARM64_FUNCTION_ID` from hv_psci.h. -/
def PSCI_MIG_INFO_UP_CPU_ARM64_FUNCTION_ID : Nat := 0xC4000007

/-- `PSCI_NODE_HW_STATE_ARM64_FUNCTION_ID` from hv_psci.h. -/
def PSCI_NODE_HW_STATE_ARM64_FUNCTION_ID : Nat := 0xC400000D

/-- `PSCI_STAT_RESIDENCY_ARM64_FUNCTION_ID` from hv_psci.h. -/
def PSCI_STAT_RESIDENCY_ARM64_FUNCTION_ID : Nat := 0xC4000010

/-- `PSCI_STAT_COUNT_ARM64_FUNCTION_ID` from hv_psci.h. -/
def PSCI_STAT_COUNT_ARM64_FUNCTION_ID : Nat := 0xC4000011

/-- `PSCI_SYSTEM_RESET2_ARM64_FUNCTION_ID` from hv_psci.h. -/
def PSCI_SYSTEM_RESET2_ARM64_FUNCTION_ID : Nat := 0xC4000012

/-- `PSCI_MEM_CHECK_RANGE_ARM64_FUNCTION_ID` from hv_psci.h. -/
def PSCI_MEM_CHECK_RANGE_ARM64_FUNCTION_ID : Nat := 0xC4000014

/-- `SMCCC_VERSION` from hv_psci.h. -/
def SMCCC_VERSION : Nat := 0x80000000

/-- `PSCI_VERSION = PSCI_MAJOR_VER_1 | PSCI_MINOR_VER_1 = (1 << 16) | 1` from hv_psci.h. -/
def PSCI_VERSION : Nat := (1 <<< 16) ||| 1

/-- `SMC_64_FUNCTION = BIT(30)` from hv_psci.h. -/
def SMC_64_FUNCTION : Nat := 1 <<< 30

/-- `SCTLR_C` (data-cache enable bit of SCTLR, bit 2). -/
def SCTLR_C : Nat := 1 <<< 2

/-- `define_psci_cap(x) = 1 << (x & 0x1f)` from hv_psci.h. -/
def define_psci_cap (x : Nat) : Nat := 1 <<< (x &&& 0x1f)

/-- `PSCI_GENERIC_CAPABILITY` from hv_psci.h. -/
def PSCI_GENERIC_CAPABILITY : Nat :=
  define_psci_cap PSCI_GET_VERSION_FUNCTION_ID |||
  define_psci_cap PSCI_AFFINITY_INFO_ARM64_FUNCTION_ID |||
  define_psci_cap PSCI_FEATURES_FUNCTION_ID

/-- `PSCI_CAP_64BIT_MASK` from hv_psci.h. -/
def PSCI_CAP_64BIT_MASK : Nat :=
  define_psci_cap PSCI_SUSPEND_CPU_ARM64_FUNCTION_ID |||
  define_psci_cap PSCI_CPU_ON_ARM64_FUNCTION_ID |||
  define_psci_cap PSCI_AFFINITY_INFO_ARM64_FUNCTION_ID |||
  define_psci_cap PSCI_MIG_ARM64_FUNCTION_ID |||
  define_psci_cap PSCI_MIG_INFO_UP_CPU_ARM64_FUNCTION_ID |||
  define_psci_cap PSCI_NODE_HW_STATE_ARM64_FUNCTION_ID |||
  define_psci_cap PSCI_SUSPEND_CPU_ARM64_FUNCTION_ID |||
  define_psci_cap PSCI_STAT_RESIDENCY_ARM64_FUNCTION_ID |||
  define_psci_cap PSCI_STAT_COUNT_ARM64_FUNCTION_ID |||
  define_psci_cap PSCI_SYSTEM_RESET2_ARM64_FUNCTION_ID |||
  define_psci_cap PSCI_MEM_CHECK_RANGE_ARM64_FUNCTION_ID

/-- `psci_capabilities` as assembled in `hv_psci_init` (hv_psci.c). -/
def psci_capabilities : Nat :=
  PSCI_GENERIC_CAPABILITY |||
  define_psci_cap PSCI_CPU_OFF_FUNCTION_ID |||
  define_psci_cap PSCI_CPU_ON_ARM64_FUNCTION_ID |||
  define_psci_cap PSCI_CPU_ON_ARM32_FUNCTION_ID |||
  define_psci_cap PSCI_SUSPEND_CPU_ARM32_FUNCTION_ID |||
  define_psci_cap PSCI_SUSPEND_CPU_ARM64_FUNCTION_ID |||
  define_psci_cap PSCI_SYSTEM_POWEROFF_FUNCTION_ID |||
  define_psci_cap PSCI_MEM_PROTECT_FUNCTION_ID |||
  define_psci_cap PSCI_MEM_CHECK_RANGE_ARM32_FUNCTION_ID |||
  define_psci_cap PSCI_MEM_CHECK_RANGE_ARM64_FUNCTION_ID

/-- `valid_idle_states` from hv_psci.c, with the `apple_make_pwrstate_lvl2`
macro values computed: entry 0 is (On, On, IdleStandby, level 0, standby)
`= 0x1`; entry 1 is (On, IdleStandby, IdleStandby, level 1, standby)
`= 0x11`; entry 2 is (Off, Off, Off, level 2, powerdown) `= 0x40000222`;
the final `0` is the table terminator. -/
def valid_idle_states : List Nat := [0x1, 0x11, 0x40000222, 0]

/-- `non_cpu_power_domain_node_t` from hv_psci.h. -/
structure NonCpuNode where
  first_cpu_idx : Nat
  num_cpu_siblings : Nat
  parent_node : Nat
  local_power_state : Nat
  power_level : Nat
  lock_index : Nat
deriving Repr, DecidableEq

/-- The all-zero node: C globals live in BSS, so this is the pre-init value. -/
def NonCpuNode.zero : NonCpuNode :=
  ⟨0, 0, 0, 0, 0, 0⟩

/-- `cpu_power_domain_node_t` from hv_psci.h (the per-CPU spinlock slot is
unused and elided). -/
structure CpuNode where
  mpidr : Nat
  parent_node : Nat
deriving Repr, DecidableEq

/-- The all-zero CPU node (BSS pre-init value). -/
def CpuNode.zero : CpuNode := ⟨0, 0⟩

/-- `psci_per_cpu_data_t` from hv_psci.h. -/
structure PerCpuData where
  affinity_state : Nat
  target_power_level : Nat
  local_cpu_state : Nat
  cpu_index : Nat
  cluster_index : Nat
  die_index : Nat
  reg_value : Nat
  local_core_number : Nat
deriving Repr, DecidableEq

/-- The all-zero per-CPU record (BSS pre-init value). -/
def PerCpuData.zero : PerCpuData := ⟨0, 0, 0, 0, 0, 0, 0, 0⟩

/-- The mutable global PSCI state of hv_psci.c: the node arrays
`psci_cpu_nodes` / `psci_non_cpu_nodes`, the requested-state matrix
`psci_requested_local_power_states[2][24]`, the per-CPU array
`psci_cpu_data_array`, the core count `psci_num_cores`, and the value of
`SCTLR_EL1` of the executing core (touched by the power-down maintenance). -/
structure PsciState where
  non_cpu_nodes : List NonCpuNode
  cpu_nodes : List CpuNode
  requested : List (List Nat)
  cpu_data : List PerCpuData
  num_cores : Nat
  sctlr : Nat
deriving Repr, DecidableEq

/-- Read `psci_non_cpu_nodes[i]`. -/
def getNonCpu (s : PsciState) (i : Nat) : NonCpuNode :=
  s.non_cpu_nodes.getD i NonCpuNode.zero

/-- Read `psci_cpu_nodes[i]`. -/
def getCpuNode (s : PsciState) (i : Nat) : CpuNode :=
  s.cpu_nodes.getD i CpuNode.zero

/-- Read `psci_cpu_data_array[i]`. -/
def getCpuData (s : PsciState) (i : Nat) : PerCpuData :=
  s.cpu_data.getD i PerCpuData.zero

/-- Read `psci_requested_local_power_states[row][col]`. -/
def getRequested (s : PsciState) (row col : Nat) : Nat :=
  (s.requested.getD row []).getD col 0

/-- Externally visible actions: spinlock operations on `psci_locks`
(by lock index), WFI (carrying the shared state at the moment the
instruction executes), SEV, MMIO/memory writes, and entry into deep sleep
(`cpu_sleep`). -/
inductive Event where
  | spinLock (lockIndex : Nat)
  | spinUnlock (lockIndex : Nat)
  | wfi (snapshot : PsciState)
  | sev
  | write32 (addr value : Nat)
  | write64 (addr value : Nat)
  | cpuSleep (deep : Bool)
deriving Repr, DecidableEq

/-- Result of a PSCI service routine: a returned value together with the
final shared state and the trace of external actions, or a `panic` (which in
m1n1 never returns). -/
inductive Res (α : Type) where
  | ok (v : α) (s : PsciState) (tr : List Event)
  | panicked (s : PsciState) (tr : List Event)
deriving Repr, DecidableEq

/-- Machine context that the PSCI code reads but does not own: `cpu` is the
calling core's logical index (the value `hv_psci_get_core_position()`
computes from `MPIDR_EL1`), `isr` is the value read from `ISR_EL1`,
`gMaxOff` is the unspecified value produced when
`hv_psci_find_max_off_level` falls off the end of the function (C undefined
behaviour: the loop can finish without executing a `return`), `releaseAddr`
is `smp_get_release_addr`, and `pmgrReg`, `cpuStartOff`, `pmgrDieOffset` are
the ADT/platform constants `adt_pmgr_reg`, `cpu_start_off`,
`PMGR_DIE_OFFSET`. -/
structure Env where
  cpu : Nat
  isr : Nat
  gMaxOff : Nat
  releaseAddr : Nat → Nat
  pmgrReg : Nat
  cpuStartOff : Nat
  pmgrDieOffset : Nat

/-- Unsigned 32-bit decrement `n - 1U` (wraps at zero, as in
`parent_node_index - 1U` of `hv_psci_populate_power_domain_tree`). -/
def usub1 (n : Nat) : Nat := (n + 0xFFFFFFFF) % 0x100000000

/-- `hv_psci_initialize_power_domain_node` from hv_psci.c.  For a non-CPU
node it sets the level, the lock index (via `hv_psci_lock_init`, which
stores the node's own index), the parent and the OFF local state; for a CPU
node it sets the parent and zeroes the MPIDR, and then - through the
`cpu_data = psci_cpu_data_array` pointer, i.e. element 0 - resets the
per-CPU record of CPU 0. -/
def hv_psci_initialize_power_domain_node (s : PsciState) (node_index parent_index level : Nat) :
    PsciState :=
  if level > PSCI_CPU_POWER_LEVEL then
    let n := getNonCpu s node_index
    let n' := { n with power_level := level, lock_index := node_index,
                       parent_node := parent_index, local_power_state := PSCI_MAX_OFF_STATE }
    { s with non_cpu_nodes := s.non_cpu_nodes.set node_index n' }
  else
    let c := getCpuNode s node_index
    let c' := { c with parent_node := parent_index, mpidr := 0 }
    let s1 := { s with cpu_nodes := s.cpu_nodes.set node_index c' }
    let d := getCpuData s1 0
    let d' := { d with affinity_state := AFFINITY_STATE_OFF,
                       target_power_level := PSCI_INVALID_LEVEL,
                       local_cpu_state := PSCI_MAX_OFF_STATE }
    { s1 with cpu_data := s1.cpu_data.set 0 d' }

/-- The inner `for (j = node_index; j < node_index + num_children; j++)`
loop of `hv_psci_populate_power_domain_tree`: initialise `count` consecutive
nodes starting at `j`. -/
def populateChildren (s : PsciState) (j count parent_index level : Nat) : PsciState :=
  match count with
  | 0 => s
  | count' + 1 =>
      populateChildren (hv_psci_initialize_power_domain_node s j parent_index level)
        (j + 1) count' parent_index level

/-- The middle `for (i = 0; i < number_of_nodes_at_level; i++)` loop of
`hv_psci_populate_power_domain_tree`.  Returns the updated state together
with the new `node_index`, `parent_node_index` and
`number_of_nodes_at_next_level`. -/
def populateLevel (map : List Nat) (level : Nat) :
    Nat → PsciState → Nat → Nat → Nat → PsciState × Nat × Nat × Nat
  | 0, s, node_index, parent_node_index, next_count =>
      (s, node_index, parent_node_index, next_count)
  | i + 1, s, node_index, parent_node_index, next_count =>
      let num_children := map.getD parent_node_index 0
      let s1 := populateChildren s node_index num_children (usub1 parent_node_index) level
      populateLevel map level i s1 (node_index + num_children) (parent_node_index + 1)
        (next_count + num_children)

/-- The outer `while (level >= PSCI_CPU_POWER_LEVEL)` loop of
`hv_psci_populate_power_domain_tree`; `fuel = level + 1` counts the
remaining iterations (levels `fuel - 1` down to `0`).  After processing a
level the node counter restarts at zero when the next level is the CPU
level, exactly as in the source.  Returns the final state and `j`
(`= node_index`), the number of CPU nodes, which the caller stores in
`psci_num_cores`. -/
def populateWhile (map : List Nat) :
    Nat → Nat → Nat → Nat → PsciState → PsciState × Nat
  | 0, _, node_index, _, s => (s, node_index)
  | fuel + 1, number_at_level, node_index, parent_node_index, s =>
      let level := fuel
      let (s1, node_index1, parent1, next_count) :=
        populateLevel map level number_at_level s node_index parent_node_index 0
      let node_index2 := if level = PSCI_CPU_POWER_LEVEL + 1 then 0 else node_index1
      populateWhile map fuel next_count node_index2 parent1 s1

/-- `hv_psci_populate_power_domain_tree` from hv_psci.c: builds the node
arrays from the breadth-first topology descriptor and returns the number of
CPU nodes created. -/
def hv_psci_populate_power_domain_tree (map : List Nat) (s : PsciState) : PsciState × Nat :=
  populateWhile map (PSCI_MAX_POWER_LEVEL + 1) 1 0 0 s

/-- `hv_psci_get_parent_nodes` from hv_psci.c: the ancestors of
`cpu_index`, one per level `1 .. end_power_level`.  `parentWalk` is the
loop, unrolled on the level count. -/
def parentWalk (s : PsciState) (parent_node : Nat) : Nat → List Nat
  | 0 => []
  | k + 1 => parent_node :: parentWalk s (getNonCpu s parent_node).parent_node k

/-- `hv_psci_get_parent_nodes` proper (see `parentWalk`). -/
def hv_psci_get_parent_nodes (s : PsciState) (cpu_index end_power_level : Nat) : List Nat :=
  parentWalk s (getCpuNode s cpu_index).parent_node end_power_level

/-- The `for (j = PSCI_MAX_POWER_LEVEL - 1; j >= 0; j--)` loop of
`hv_psci_update_power_level_limits`; `fuel = j + 1`.  `temp` is
`temp_index`, `nodes` is the (initially uninitialised) `nodes_index`. -/
def updateLimitsJLoop (cpu_index : Nat) (temp : List Nat) :
    Nat → List Nat → PsciState → List Nat × PsciState
  | 0, nodes, s => (nodes, s)
  | fuel + 1, nodes, s =>
      let j := fuel
      let t := temp.getD j 0
      let (nodes1, s1) :=
        if t ≠ nodes.getD j 0 then
          let n := getNonCpu s t
          let n' := { n with first_cpu_idx := cpu_index }
          (nodes.set j t, { s with non_cpu_nodes := s.non_cpu_nodes.set t n' })
        else (nodes, s)
      let idx := nodes1.getD j 0
      let n1 := getNonCpu s1 idx
      let n1' := { n1 with num_cpu_siblings := n1.num_cpu_siblings + 1 }
      let s2 := { s1 with non_cpu_nodes := s1.non_cpu_nodes.set idx n1' }
      updateLimitsJLoop cpu_index temp fuel nodes1 s2

/-- One iteration of the outer loop of `hv_psci_update_power_level_limits`
(one CPU). -/
def updateLimitsCpu (cpu_index : Nat) (nodes : List Nat) (s : PsciState) :
    List Nat × PsciState :=
  let temp := hv_psci_get_parent_nodes s cpu_index PSCI_MAX_POWER_LEVEL
  updateLimitsJLoop cpu_index temp PSCI_MAX_POWER_LEVEL nodes s

/-- The outer `for (cpu_index = 0; cpu_index < psci_num_cores; ...)` loop of
`hv_psci_update_power_level_limits`; counts `remaining` CPUs starting at
`cpu_index`. -/
def updateLimitsLoop : Nat → Nat → List Nat → PsciState → PsciState
  | _, 0, _, s => s
  | cpu_index, remaining + 1, nodes, s =>
      let (nodes1, s1) := updateLimitsCpu cpu_index nodes s
      updateLimitsLoop (cpu_index + 1) remaining nodes1 s1

/-- `hv_psci_update_power_level_limits` from hv_psci.c.  The local array
`nodes_index` is read before it is ever written (C undefined behaviour), so
its initial contents `g` are a parameter of the model. -/
def hv_psci_update_power_level_limits (g : List Nat) (s : PsciState) : PsciState :=
  updateLimitsLoop 0 s.num_cores g s

/-- The zeroed global state (all the arrays are BSS globals):
`psci_non_cpu_nodes` has `(T6021_NUM_CLUSTERS * 2) + 1 = 7` slots,
`psci_cpu_nodes` and `psci_cpu_data_array` have `MAX_CPUS = 24`, and the
requested-state matrix is `2 x 24`. -/
def initialState : PsciState :=
  { non_cpu_nodes := List.replicate 7 NonCpuNode.zero
    cpu_nodes := List.replicate MAX_CPUS CpuNode.zero
    requested := List.replicate 2 (List.replicate 24 0)
    cpu_data := List.replicate MAX_CPUS PerCpuData.zero
    num_cores := 0
    sctlr := SCTLR_C }

/-- `apple_t8103_power_domain_tree_descriptor` from hv_psci.c:
`[NUM_SYSTEMS_ACTIVE, T8103_NUM_CLUSTERS, T8103_CORES_PER_CLUSTER,
T8103_CORES_PER_CLUSTER] = [1, 2, 4, 4]`. -/
def apple_t8103_power_domain_tree_descriptor : List Nat := [1, 2, 4, 4]

/-- The tree-building part of `hv_psci_init` for the T8103: select the
descriptor, run `hv_psci_populate_power_domain_tree` (whose result becomes
`psci_num_cores`), then `hv_psci_update_power_level_limits` with
uninitialised `nodes_index` contents `g`. -/
def treeAfterInit (map : List Nat) (g : List Nat) : PsciState :=
  let (s1, cores) := hv_psci_populate_power_domain_tree map initialState
  let s2 := { s1 with num_cores := cores }
  hv_psci_update_power_level_limits g s2

/-- The state after `hv_psci_populate_power_domain_tree` (with
`psci_num_cores` already stored), before the limits pass. -/
def treeAfterPopulate (map : List Nat) : PsciState :=
  let (s1, cores) := hv_psci_populate_power_domain_tree map initialState
  { s1 with num_cores := cores }

/-- `hv_psci_init_requested_local_power_states` from hv_psci.c: the inner
core loop of one row, setting entries `0 .. num_cores - 1` to
`PSCI_MAX_OFF_STATE`. -/
def initRequestedRow (row : List Nat) (num_cores : Nat) : List Nat :=
  (List.range num_cores).foldl (fun r core => r.set core PSCI_MAX_OFF_STATE) row

/-- `hv_psci_init_requested_local_power_states` from hv_psci.c: both rows
(`power_level = 0, 1`) of the requested-state matrix are initialised to
`PSCI_MAX_OFF_STATE` for every core below `psci_num_cores`. -/
def hv_psci_init_requested_local_power_states (s : PsciState) : PsciState :=
  let m :=
    (List.range PSCI_MAX_POWER_LEVEL).foldl
      (fun m power_level => m.set power_level (initRequestedRow (m.getD power_level []) s.num_cores))
      s.requested
  { s with requested := m }

/-- `hv_psci_set_requested_local_power_state` from hv_psci.c.  The write is
guarded: only `0 < power_level <= PSCI_MAX_POWER_LEVEL` and
`cpu_index < psci_num_cores` reach the array (row `power_level - 1`). -/
def hv_psci_set_requested_local_power_state (s : PsciState)
    (power_level cpu_index requested_power_state : Nat) : PsciState :=
  if 0 < power_level ∧ power_level ≤ PSCI_MAX_POWER_LEVEL ∧ cpu_index < s.num_cores then
    let row := (s.requested.getD (power_level - 1) []).set cpu_index requested_power_state
    { s with requested := s.requested.set (power_level - 1) row }
  else s

/-- `hv_psci_set_cpu_local_state` from hv_psci.c: store into
`psci_cpu_data_array[cpu].local_cpu_state`, where `cpu` is the calling
core's index. -/
def hv_psci_set_cpu_local_state (cpu : Nat) (s : PsciState) (state : Nat) : PsciState :=
  let d := getCpuData s cpu
  { s with cpu_data := s.cpu_data.set cpu ({ d with local_cpu_state := state }) }

/-- `hv_psci_get_cpu_local_state` from hv_psci.c. -/
def hv_psci_get_cpu_local_state (cpu : Nat) (s : PsciState) : Nat :=
  (getCpuData s cpu).local_cpu_state

/-- `hv_psci_set_non_cpu_power_domain_node_local_state` from hv_psci.c
(the trailing cache clean+invalidate has no effect in this memory model). -/
def hv_psci_set_non_cpu_power_domain_node_local_state (s : PsciState)
    (parent_index state : Nat) : PsciState :=
  let n := getNonCpu s parent_index
  { s with non_cpu_nodes := s.non_cpu_nodes.set parent_index ({ n with local_power_state := state }) }

/-- `hv_psci_get_non_cpu_power_domain_local_state` from hv_psci.c. -/
def hv_psci_get_non_cpu_power_domain_local_state (s : PsciState) (parent_index : Nat) : Nat :=
  (getNonCpu s parent_index).local_power_state

/-- `hv_psci_set_affinity_info_state` from hv_psci.c. -/
def hv_psci_set_affinity_info_state (cpu : Nat) (s : PsciState) (state : Nat) : PsciState :=
  let d := getCpuData s cpu
  { s with cpu_data := s.cpu_data.set cpu ({ d with affinity_state := state }) }

/-- `hv_psci_set_suspend_power_level` from hv_psci.c. -/
def hv_psci_set_suspend_power_level (cpu : Nat) (s : PsciState) (target_level : Nat) : PsciState :=
  let d := getCpuData s cpu
  { s with cpu_data := s.cpu_data.set cpu ({ d with target_power_level := target_level }) }

/-- The `do { ... } while (siblings > 0)` body of
`hv_psci_get_target_power_state`: scan `states[idx]`, keep the running
minimum, decrement the unsigned counter and continue while it is still
positive.  The source asserts `num_cpu_siblings > 0`; for a zero count the C
counter would wrap (undefined behaviour), while this model stops. -/
def targetStateLoop (states : List Nat) : Nat → Nat → Nat → Nat
  | idx, target, siblings =>
    let temp := states.getD idx 0
    let target' := if temp < target then temp else target
    match siblings with
    | 0 => target'
    | 1 => target'
    | n + 2 => targetStateLoop states (idx + 1) target' (n + 1)

/-- `hv_psci_get_target_power_state` from hv_psci.c: the numeric minimum of
`num_cpu_siblings` entries starting at `states + start` (the caller passes a
pointer `&requested[level-1][start_index]`; here the row and the start
offset are explicit).  The `level` argument is unused in the source
(`UNUSED(level)`). -/
def hv_psci_get_target_power_state (level : Nat) (states : List Nat)
    (start num_cpu_siblings : Nat) : Nat :=
  let _ := level
  targetStateLoop states start PSCI_OFF_STATE num_cpu_siblings

/-- The `for (level = 1; level <= end_power_level; level++)` loop of
`hv_psci_set_target_local_power_states`, copying `state_info[level]` into
each ancestor's `local_power_state`. -/
def setTargetLoop (end_power_level : Nat) (info : List Nat) :
    Nat → Nat → Nat → PsciState → PsciState
  | 0, _, _, s => s
  | fuel + 1, level, parent_index, s =>
    if level ≤ end_power_level then
      let s1 := hv_psci_set_non_cpu_power_domain_node_local_state s parent_index (info.getD level 0)
      setTargetLoop end_power_level info fuel (level + 1) (getNonCpu s1 parent_index).parent_node s1
    else s

/-- `hv_psci_set_target_local_power_states` from hv_psci.c: store
`state_info[0]` into the calling CPU's `local_cpu_state`, then walk the
ancestors storing `state_info[level]` for `level = 1 .. end_power_level`. -/
def hv_psci_set_target_local_power_states (cpu : Nat) (end_power_level : Nat)
    (s : PsciState) (info : List Nat) : PsciState :=
  let s1 := hv_psci_set_cpu_local_state cpu s (info.getD PSCI_CPU_POWER_LEVEL 0)
  let parent_index := (getCpuNode s1 cpu).parent_node
  setTargetLoop end_power_level info (end_power_level + 1) 1 parent_index s1

/-- Result of the first (coordination) loop of
`hv_psci_coordinate_power_states`: the state and `state_info` after the
loop, together with the exit value of the loop variable `level` (used by the
source's second loop, which starts at `level + 1`) and of `parent_index`. -/
structure CoordLoopOut where
  s : PsciState
  info : List Nat
  level : Nat
  parent_index : Nat
deriving Repr, DecidableEq

/-- The first loop of `hv_psci_coordinate_power_states`
(`for (level = 1; level <= end_power_level; level++)`): record the CPU's
request, compute the coordinated target, store it into `state_info[level]`
and break early when it is `PSCI_ON_STATE`.  Note the source reads the
sibling count from `psci_non_cpu_nodes->num_cpu_siblings`, i.e. from node 0
(the root), not from `psci_non_cpu_nodes[parent_index]`. -/
def coordLoop (cpu_index end_power_level : Nat) :
    Nat → Nat → Nat → PsciState → List Nat → CoordLoopOut
  | 0, level, parent_index, s, info => ⟨s, info, level, parent_index⟩
  | fuel + 1, level, parent_index, s, info =>
    if level ≤ end_power_level then
      let s1 := hv_psci_set_requested_local_power_state s level cpu_index (info.getD level 0)
      let start_index := (getNonCpu s1 parent_index).first_cpu_idx
      let num_cpu_siblings := (getNonCpu s1 0).num_cpu_siblings
      let target_state :=
        hv_psci_get_target_power_state level (s1.requested.getD (level - 1) [])
          start_index num_cpu_siblings
      let info1 := info.set level target_state
      if info1.getD level 0 = PSCI_ON_STATE then
        ⟨s1, info1, level, parent_index⟩
      else
        coordLoop cpu_index end_power_level fuel (level + 1)
          (getNonCpu s1 parent_index).parent_node s1 info1
    else ⟨s, info, level, parent_index⟩

/-- The second loop of `hv_psci_coordinate_power_states`
(`for (level = level + 1; level <= end_power_level; level++)`): for each
remaining level, store the still-uncoordinated `state_info[level]` into the
requested-state matrix and then overwrite `state_info[level]` with
`PSCI_ON_STATE`. -/
def coordRemaining (cpu_index end_power_level : Nat) :
    Nat → Nat → PsciState → List Nat → PsciState × List Nat
  | 0, _, s, info => (s, info)
  | fuel + 1, level, s, info =>
    if level ≤ end_power_level then
      let s1 := hv_psci_set_requested_local_power_state s level cpu_index (info.getD level 0)
      let info1 := info.set level PSCI_ON_STATE
      coordRemaining cpu_index end_power_level fuel (level + 1) s1 info1
    else (s, info)

/-- `hv_psci_coordinate_power_states` from hv_psci.c: the coordination loop,
the fix-up loop for the remaining levels, and the final
`hv_psci_set_target_local_power_states`.  Returns the final state and the
final `state_info`. -/
def hv_psci_coordinate_power_states (cpu_index end_power_level : Nat)
    (s : PsciState) (info : List Nat) : PsciState × List Nat :=
  let parent_index := (getCpuNode s cpu_index).parent_node
  let out := coordLoop cpu_index end_power_level (end_power_level + 1) 1 parent_index s info
  let (s2, info2) :=
    coordRemaining cpu_index end_power_level (end_power_level + 1) (out.level + 1) out.s out.info
  (hv_psci_set_target_local_power_states cpu_index end_power_level s2 info2, info2)

/-- The acquire loop of `hv_psci_acquire_power_domain_tree_locks`
(`for (level = 1; level < end_power_level; level++)`), as the list of
`spin_lock` events on `psci_locks[non_cpu[parent_nodes[level-1]].lock_index]`.
Note the strict `<`: the level-`end_power_level` ancestor's lock is never
acquired. -/
def acquireLoop (s : PsciState) (end_power_level : Nat) (parent_nodes : List Nat) :
    Nat → Nat → List Event
  | 0, _ => []
  | fuel + 1, level =>
    if level < end_power_level then
      Event.spinLock (getNonCpu s (parent_nodes.getD (level - 1) 0)).lock_index ::
        acquireLoop s end_power_level parent_nodes fuel (level + 1)
    else []

/-- `hv_psci_acquire_power_domain_tree_locks` from hv_psci.c. -/
def hv_psci_acquire_power_domain_tree_locks (s : PsciState) (end_power_level : Nat)
    (parent_nodes : List Nat) : List Event :=
  acquireLoop s end_power_level parent_nodes (end_power_level + 1) 1

/-- The release loop of `hv_psci_release_power_domain_tree_locks`
(`for (level = end_power_level; level >= PSCI_CPU_POWER_LEVEL + 1; level--)`),
as the list of `spin_unlock` events; `level` descends from
`end_power_level` to `1`. -/
def releaseLoop (s : PsciState) (parent_nodes : List Nat) : Nat → List Event
  | 0 => []
  | level + 1 =>
      Event.spinUnlock (getNonCpu s (parent_nodes.getD (level + 1 - 1) 0)).lock_index ::
        releaseLoop s parent_nodes level

/-- `hv_psci_release_power_domain_tree_locks` from hv_psci.c. -/
def hv_psci_release_power_domain_tree_locks (s : PsciState) (end_power_level : Nat)
    (parent_nodes : List Nat) : List Event :=
  releaseLoop s parent_nodes end_power_level

/-- `hv_psci_power_state_sanity_check(power_state) = power_state & PSCI_STATE_VALID_MASK`. -/
def hv_psci_power_state_sanity_check (power_state : Nat) : Nat :=
  power_state &&& PSCI_STATE_VALID_MASK

/-- `hv_psci_power_state_get_type(power_state) = (power_state >> 30) & 1`. -/
def hv_psci_power_state_get_type (power_state : Nat) : Nat :=
  (power_state >>> PSCI_STATE_TYPE_SHIFT) &&& PSCI_STATE_TYPE_MASK

/-- `hv_psci_power_state_get_id(power_state) = power_state & PSCI_STATE_ID_MASK`. -/
def hv_psci_power_state_get_id (power_state : Nat) : Nat :=
  power_state &&& PSCI_STATE_ID_MASK

/-- The whitelist scan of `hv_psci_validate_power_state`:
`for (i = 0; !!valid_idle_states[i]; i++) if (power_state == valid_idle_states[i]) break;`
followed by `if (!valid_idle_states[i]) return INVALID`.  True exactly when
the loop broke on a match before reaching the `0` terminator. -/
def validStateScan (power_state : Nat) : List Nat → Bool
  | [] => false
  | v :: rest =>
      if v = 0 then false
      else if power_state = v then true
      else validStateScan power_state rest

/-- The extraction loop of `hv_psci_validate_power_state`: for
`i = 0 .. PSCI_MAX_POWER_LEVEL`, `state_info[i] = id & PLAT_LOCAL_PSTATE_MASK`
and `id >>= PLAT_LOCAL_PSTATE_WIDTH`; `fuel` counts the remaining levels. -/
def extractLoop : Nat → Nat → Nat → List Nat → List Nat
  | i, power_state_id, fuel, info =>
    match fuel with
    | 0 => info
    | fuel' + 1 =>
        extractLoop (i + 1) (power_state_id >>> PLAT_LOCAL_PSTATE_WIDTH) fuel'
          (info.set i (power_state_id &&& PLAT_LOCAL_PSTATE_MASK))

/-- `hv_psci_validate_power_state` from hv_psci.c: reject when the reserved
bits (`PSCI_STATE_VALID_MASK`) are set or the value is not in
`valid_idle_states` (returning `PSCI_STATUS_INVALID_PARAMETERS`, here
`none`); otherwise fill `state_info` with one 4-bit local state per level
and succeed.  The `state_info` passed by `hv_psci_suspend_cpu` is
`{ {PSCI_ON_STATE} } = [0, 0, 0]`. -/
def hv_psci_validate_power_state (power_state : Nat) : Option (List Nat) :=
  if hv_psci_power_state_sanity_check power_state ≠ 0 then none
  else if !validStateScan power_state valid_idle_states then none
  else
    some (extractLoop PSCI_CPU_POWER_LEVEL (hv_psci_power_state_get_id power_state)
      (PSCI_MAX_POWER_LEVEL + 1) [PSCI_ON_STATE, 0, 0])

/-- `hv_psci_is_local_state_run` from hv_psci.h. -/
def hv_psci_is_local_state_run (plat_local_state : Nat) : Nat :=
  if plat_local_state = PSCI_ON_STATE then 1 else 0

/-- `hv_psci_find_target_suspend_level` from hv_psci.c: the deepest level
whose requested state is not the run state, or `PSCI_INVALID_LEVEL`. -/
def hv_psci_find_target_suspend_level (info : List Nat) : Nat :=
  if hv_psci_is_local_state_run (info.getD 2 0) = 0 then 2
  else if hv_psci_is_local_state_run (info.getD 1 0) = 0 then 1
  else if hv_psci_is_local_state_run (info.getD 0 0) = 0 then 0
  else PSCI_INVALID_LEVEL

/-- `hv_psci_find_max_off_level` from hv_psci.c: the deepest level whose
state lies in `(PSCI_MAX_RETENTION_STATE, PSCI_MAX_OFF_STATE]`.  When no
level qualifies the C function falls off its end without a `return`
(undefined behaviour); that case is `none`, and callers resolve it with the
unspecified `Env.gMaxOff`. -/
def hv_psci_find_max_off_level (info : List Nat) : Option Nat :=
  if info.getD 2 0 > PSCI_MAX_RETENTION_STATE ∧ info.getD 2 0 ≤ PSCI_MAX_OFF_STATE then some 2
  else if info.getD 1 0 > PSCI_MAX_RETENTION_STATE ∧ info.getD 1 0 ≤ PSCI_MAX_OFF_STATE then some 1
  else if info.getD 0 0 > PSCI_MAX_RETENTION_STATE ∧ info.getD 0 0 ≤ PSCI_MAX_OFF_STATE then some 0
  else none

/-- `hv_psci_power_state_categorize_type` from hv_psci.c. -/
def hv_psci_power_state_categorize_type (state : Nat) : Nat :=
  if state ≠ PSCI_ON_STATE then
    if state > PSCI_IDLE_STANDBY_STATE then STATE_TYPE_OFF else STATE_TYPE_RETN
  else STATE_TYPE_RUN

/-- `hv_psci_is_cpu_standby_requested` from hv_psci.h. -/
def hv_psci_is_cpu_standby_requested (is_power_down_state retention_lvl : Nat) : Bool :=
  is_power_down_state = 0 ∧ retention_lvl = 0

/-- The monotonicity loop of `hv_psci_validate_suspend_request`
(`for (i = target_level; i >= 0; i--)`): categorise each level's state and
require the categories to be non-decreasing toward the CPU; `fuel = i + 1`.
Returns `false` when the check fails. -/
def suspendMonotone (info : List Nat) : Nat → Nat → Bool
  | 0, _ => true
  | fuel + 1, lowest_state_type =>
      let i := fuel
      let requested_state_type := hv_psci_power_state_categorize_type (info.getD i 0)
      if requested_state_type < lowest_state_type then false
      else suspendMonotone info fuel requested_state_type

/-- `hv_psci_validate_suspend_request` from hv_psci.c.  The
`hv_psci_find_max_off_level` result is undefined for pure-retention
requests (see `hv_psci_find_max_off_level`), resolved by `gMaxOff`. -/
def hv_psci_validate_suspend_request (gMaxOff : Nat) (info : List Nat)
    (is_power_down_state : Nat) : Int :=
  let target_level := hv_psci_find_target_suspend_level info
  if target_level = PSCI_INVALID_LEVEL then PSCI_STATUS_INVALID_PARAMETERS
  else if !suspendMonotone info (target_level + 1) PSCI_ON_STATE then
    PSCI_STATUS_INVALID_PARAMETERS
  else
    let max_power_off_level := (hv_psci_find_max_off_level info).getD gMaxOff
    let max_retention_level :=
      if target_level ≠ max_power_off_level then target_level else PSCI_INVALID_LEVEL
    if is_power_down_state = 0 ∧
        (max_power_off_level ≠ PSCI_INVALID_LEVEL ∨ max_retention_level = PSCI_INVALID_LEVEL) then
      PSCI_STATUS_INVALID_PARAMETERS
    else PSCI_STATUS_SUCCESS

/-- The loop of `hv_psci_construct_poweroff_state`: set every level of
`state_info` to `PSCI_OFF_STATE`. -/
def hv_psci_construct_poweroff_state (info : List Nat) : List Nat :=
  (List.range (PSCI_MAX_POWER_LEVEL + 1)).foldl (fun acc level => acc.set level PSCI_OFF_STATE) info

/-- `hv_psci_power_down_cpu_maintenance` from hv_psci.c: clear the `C` bit
of `SCTLR_EL1` (disable data caching); the following
`dcsw_op_all(DCSW_OP_DCISW)` has no effect in this memory model. -/
def hv_psci_power_down_cpu_maintenance (s : PsciState) : PsciState :=
  { s with sctlr := s.sctlr - (s.sctlr &&& SCTLR_C) }

/-- The level loop of `hv_psci_set_power_domains_to_on_state`: for
`level = 1 .. end_power_level`, set the ancestor's local state and the
CPU's requested entry to `PSCI_ON_STATE` and climb. -/
def setDomainsOnLoop (cpu_index end_power_level : Nat) : Nat → Nat → Nat → PsciState → PsciState
  | 0, _, _, s => s
  | fuel + 1, level, parent_index, s =>
    if level ≤ end_power_level then
      let s1 := hv_psci_set_non_cpu_power_domain_node_local_state s parent_index PSCI_ON_STATE
      let s2 := hv_psci_set_requested_local_power_state s1 level cpu_index PSCI_ON_STATE
      setDomainsOnLoop cpu_index end_power_level fuel (level + 1)
        (getNonCpu s2 parent_index).parent_node s2
    else s

/-- `hv_psci_set_power_domains_to_on_state` from hv_psci.c: walk the
ancestors up to `end_power_level` setting everything to ON, then mark the
CPU's affinity state ON and its local state ON. -/
def hv_psci_set_power_domains_to_on_state (cpu : Nat) (end_power_level : Nat)
    (s : PsciState) : PsciState :=
  let parent_index := (getCpuNode s cpu).parent_node
  let s1 := setDomainsOnLoop cpu end_power_level (end_power_level + 1) 1 parent_index s
  let s2 := hv_psci_set_affinity_info_state cpu s1 AFFINITY_STATE_ON
  hv_psci_set_cpu_local_state cpu s2 PSCI_ON_STATE

/-- The ancestor-reading loop of `hv_psci_get_target_local_power_states`
(levels `1 .. end_power_level`). -/
def getTargetStatesLoop (end_power_level : Nat) (s : PsciState) :
    Nat → Nat → Nat → List Nat → List Nat
  | 0, level, _, info =>
      (List.range (PSCI_MAX_POWER_LEVEL + 1)).foldl
        (fun acc l => if level ≤ l then acc.set l PSCI_ON_STATE else acc) info
  | fuel + 1, level, parent_index, info =>
    if level ≤ end_power_level then
      getTargetStatesLoop end_power_level s fuel (level + 1) (getNonCpu s parent_index).parent_node
        (info.set level (hv_psci_get_non_cpu_power_domain_local_state s parent_index))
    else
      (List.range (PSCI_MAX_POWER_LEVEL + 1)).foldl
        (fun acc l => if level ≤ l then acc.set l PSCI_ON_STATE else acc) info

/-- `hv_psci_get_target_local_power_states` from hv_psci.c: read the CPU's
local state and each ancestor's local state into a `state_info`, setting the
levels above `end_power_level` to `PSCI_ON_STATE`. -/
def hv_psci_get_target_local_power_states (cpu : Nat) (end_power_level : Nat)
    (s : PsciState) (info : List Nat) : List Nat :=
  let info0 := info.set PSCI_CPU_POWER_LEVEL (hv_psci_get_cpu_local_state cpu s)
  getTargetStatesLoop end_power_level s (end_power_level + 1) 1 (getCpuNode s cpu).parent_node info0

/-- The scan loop of `hv_psci_translate_mpidr_to_cpu`: `result` starts at
`0xff` and every `i < MAX_CPUS` whose stored `reg_value` equals the masked
MPIDR overwrites it (the last match wins). -/
def translateScan (s : PsciState) (mpidr_reg_to_check : Nat) : Nat :=
  (List.range MAX_CPUS).foldl
    (fun result i => if mpidr_reg_to_check = (getCpuData s i).reg_value then i else result) 0xff

/-- `hv_psci_translate_mpidr_to_cpu` from hv_psci.c: mask the MPIDR to its
low 16 bits, scan the stored `reg_value`s, and `panic` (here `none`) when
nothing matched. -/
def hv_psci_translate_mpidr_to_cpu (s : PsciState) (target_cpu : Nat) : Option Nat :=
  let mpidr_reg_to_check := target_cpu &&& 0x0000ffff
  let result := translateScan s mpidr_reg_to_check
  if result = 0xff then none else some result

/-- `hv_psci_turn_on_cpu` from hv_psci.c (the spintable path, since
`PSCI_POWER_ON_CPUS_ENABLE` is not defined): translate the MPIDR (panicking
when it is unknown), write the entry point into the target CPU's
spintable release slot, and issue SEV; returns `PSCI_STATUS_SUCCESS`. -/
def hv_psci_turn_on_cpu (env : Env) (s : PsciState)
    (target_cpu entry_point context_id : Nat) : Res Int :=
  let _ := context_id
  match hv_psci_translate_mpidr_to_cpu s (target_cpu % 2 ^ 32) with
  | none => .panicked s []
  | some cpu_identifier =>
      let release_addr := env.releaseAddr cpu_identifier
      .ok PSCI_STATUS_SUCCESS s [Event.write64 release_addr entry_point, Event.sev]

/-- `hv_psci_start_suspend_to_power_down` from hv_psci.c: record the target
suspend level and do the power-down cache maintenance (the
`hv_psci_find_max_off_level` result feeds only into the unused argument of
the maintenance routine). -/
def hv_psci_start_suspend_to_power_down (cpu : Nat) (end_power_level : Nat)
    (s : PsciState) : PsciState :=
  let s1 := hv_psci_set_suspend_power_level cpu s end_power_level
  hv_psci_power_down_cpu_maintenance s1

/-- `hv_psci_finish_cpu_suspend` from hv_psci.c: after wake-up, re-acquire
the tree locks, read the current target states (result unused by the
source), set every domain on the path to ON, and release the locks. -/
def hv_psci_finish_cpu_suspend (cpu_index end_power_level : Nat) (s : PsciState) :
    PsciState × List Event :=
  let parent_nodes := hv_psci_get_parent_nodes s cpu_index end_power_level
  let tr1 := hv_psci_acquire_power_domain_tree_locks s end_power_level parent_nodes
  let _ := hv_psci_get_target_local_power_states cpu_index end_power_level s [0, 0, 0]
  let s1 := hv_psci_set_power_domains_to_on_state cpu_index end_power_level s
  let tr2 := hv_psci_release_power_domain_tree_locks s1 end_power_level parent_nodes
  (s1, tr1 ++ tr2)

/-- `hv_psci_start_cpu_suspend` from hv_psci.c: acquire the tree locks; if
`ISR_EL1` is non-zero, set `skip_wfi`, release the locks and return
`PSCI_STATUS_SUCCESS`; otherwise coordinate, optionally prepare the power
down, release the locks, execute WFI and run the wake-up path. -/
def hv_psci_start_cpu_suspend (env : Env) (end_power_level : Nat)
    (info : List Nat) (is_power_down_state : Nat) (s : PsciState) : Res Int :=
  let retval := PSCI_STATUS_SUCCESS
  let cpu_index := env.cpu
  let parent_nodes := hv_psci_get_parent_nodes s cpu_index end_power_level
  let tr1 := hv_psci_acquire_power_domain_tree_locks s end_power_level parent_nodes
  if env.isr ≠ 0 then
    let tr2 := hv_psci_release_power_domain_tree_locks s end_power_level parent_nodes
    .ok retval s (tr1 ++ tr2)
  else
    let (s1, info1) := hv_psci_coordinate_power_states cpu_index end_power_level s info
    let s2 :=
      if is_power_down_state ≠ 0 then
        hv_psci_start_suspend_to_power_down cpu_index end_power_level s1
      else s1
    let _ := info1
    let tr2 := hv_psci_release_power_domain_tree_locks s2 end_power_level parent_nodes
    let (s3, tr3) := hv_psci_finish_cpu_suspend cpu_index end_power_level s2
    .ok retval s3 (tr1 ++ tr2 ++ [Event.wfi s2] ++ tr3)

/-- `hv_psci_suspend_cpu` from hv_psci.c: validate the power state
(returning `INVALID_PARAMETERS` on failure), `assert` the suspend request
(a failed assert panics), fast-track a pure CPU standby around a WFI, and
otherwise run the slow suspend path.  (`hv_psci_validate_entry_point`
always succeeds and only fills a local record, which nothing later reads in
this port; it is elided.) -/
def hv_psci_suspend_cpu (env : Env) (s : PsciState)
    (power_state cpu_reentry_addr context : Nat) : Res Int :=
  let _ := cpu_reentry_addr
  let _ := context
  match hv_psci_validate_power_state (power_state % 2 ^ 32) with
  | none => .ok PSCI_STATUS_INVALID_PARAMETERS s []
  | some power_state_info =>
      let is_power_down_state := hv_psci_power_state_get_type (power_state % 2 ^ 32)
      if hv_psci_validate_suspend_request env.gMaxOff power_state_info is_power_down_state ≠
          PSCI_STATUS_SUCCESS then
        .panicked s []
      else
        let target_power_level := hv_psci_find_target_suspend_level power_state_info
        if hv_psci_is_cpu_standby_requested is_power_down_state target_power_level then
          let cpu_power_domain_state := power_state_info.getD PSCI_CPU_POWER_LEVEL 0
          let s1 := hv_psci_set_cpu_local_state env.cpu s cpu_power_domain_state
          let s2 := hv_psci_set_cpu_local_state env.cpu s1 PSCI_ON_STATE
          .ok PSCI_STATUS_SUCCESS s2 [Event.wfi s1]
        else
          hv_psci_start_cpu_suspend env target_power_level power_state_info
            is_power_down_state s

/-- `PMGR_DIE_OFFSET` multiplies the die index in the CPU-start MMIO address
computation; the value lives outside this repository (m1n1's pmgr.h), so it
is the `Env.pmgrDieOffset` field. -/
def cpuStartAddr (env : Env) (s : PsciState) (index : Nat) : Nat :=
  env.pmgrReg + env.cpuStartOff + (getCpuData s index).die_index * env.pmgrDieOffset

/-- `hv_psci_turn_off_cpu` from hv_psci.c: build the all-OFF state, walk and
lock the ancestors, coordinate, do the power-down maintenance, release the
locks, mark the affinity state OFF, arm the CPU-start MMIO register with
`1 << (4 * cluster_index + local_core_number)` and enter deep sleep.
`cpu_sleep` is not expected to return, but the code after it does run if it
ever does, returning `PSCI_STATUS_SUCCESS`. -/
def hv_psci_turn_off_cpu (env : Env) (s : PsciState) : Res Int :=
  let index := env.cpu
  let power_state_info := hv_psci_construct_poweroff_state [0, 0, 0]
  let parent_nodes := hv_psci_get_parent_nodes s index PSCI_MAX_POWER_LEVEL
  let tr1 := hv_psci_acquire_power_domain_tree_locks s PSCI_MAX_POWER_LEVEL parent_nodes
  let (s1, _) := hv_psci_coordinate_power_states index PSCI_MAX_POWER_LEVEL s power_state_info
  let s2 := hv_psci_power_down_cpu_maintenance s1
  let tr2 := hv_psci_release_power_domain_tree_locks s2 PSCI_MAX_POWER_LEVEL parent_nodes
  let s3 := hv_psci_set_affinity_info_state index s2 AFFINITY_STATE_OFF
  let cluster_index := (getCpuData s3 index).cluster_index
  let local_cluster_core_num := (getCpuData s3 index).local_core_number
  let ev := Event.write32 (cpuStartAddr env s3 index)
    ((1 <<< (4 * cluster_index + local_cluster_core_num)) % 2 ^ 32)
  .ok PSCI_STATUS_SUCCESS s3 (tr1 ++ tr2 ++ [ev, Event.cpuSleep true])

/-- `hv_psci_features` from hv_psci.c. -/
def hv_psci_features (psci_function_id : Nat) : Int :=
  if psci_function_id = SMCCC_VERSION then PSCI_STATUS_SUCCESS
  else
    let local_capabilities :=
      if (psci_function_id >>> 30) &&& 1 = 1 then psci_capabilities &&& PSCI_CAP_64BIT_MASK
      else psci_capabilities
    if local_capabilities &&& define_psci_cap psci_function_id = 0 then
      PSCI_STATUS_NOT_SUPPORTED
    else PSCI_STATUS_SUCCESS

/-- `hv_psci_mem_protect_check_range` from hv_psci.c (a stub returning
`PSCI_STATUS_SUCCESS`). -/
def hv_psci_mem_protect_check_range (base length : Nat) : Int :=
  let _ := base
  let _ := length
  PSCI_STATUS_SUCCESS

/-- `hv_psci_mem_protect` from hv_psci.c (a stub returning 0). -/
def hv_psci_mem_protect (enable_mem_protect : Nat) : Nat :=
  let _ := enable_mem_protect
  0

/-- The guest register file of the trap frame (`struct exc_info`'s `regs`),
X0..X3 as 64-bit values. -/
structure Ctx where
  regs : List Nat
deriving Repr, DecidableEq

/-- Write X0 of the trap frame (`ctx->regs[0] = ...`). -/
def setReg0 (ctx : Ctx) (v : Nat) : Ctx :=
  { ctx with regs := ctx.regs.set 0 v }

/-- Store a C `int` return value into a 64-bit register: the usual two's
complement conversion to `uint64_t`. -/
def u64ofInt (v : Int) : Nat :=
  (v % (2 ^ 64 : Int)).toNat

/-- Outcome of `hv_handle_psci_smc`: a normal return carrying the `bool`
result and the updated trap frame, a `panic`, or a call that never returns
(`hv_psci_turn_off_system` via `flush_and_reboot`, and
`hv_psci_reset_system` via `reboot`). -/
inductive SmcOutcome where
  | ret (handled : Bool) (ctx : Ctx) (s : PsciState) (tr : List Event)
  | panicked (s : PsciState) (tr : List Event)
  | noReturn (s : PsciState) (tr : List Event)
deriving Repr, DecidableEq

/-- `hv_handle_psci_smc` from hv_psci.c: dispatch on `X0`.  SMC32 calls
(bit 30 of the function ID clear) truncate `X1`..`X3` to 32 bits; the SMC32
switch has a `default` arm writing `PSCI_STATUS_NOT_SUPPORTED` into `X0`,
while the SMC64 switch has no `default` arm, so an unrecognised SMC64
function ID leaves the trap frame untouched.  Every path that returns at
all returns `true`. -/
def hv_handle_psci_smc (env : Env) (ctx : Ctx) (s : PsciState) : SmcOutcome :=
  let psci_func_id := ctx.regs.getD 0 0
  if psci_func_id &&& SMC_64_FUNCTION = 0 then
    let w1 := ctx.regs.getD 1 0 % 2 ^ 32
    let w2 := ctx.regs.getD 2 0 % 2 ^ 32
    let w3 := ctx.regs.getD 3 0 % 2 ^ 32
    if psci_func_id = PSCI_GET_VERSION_FUNCTION_ID then
      .ret true (setReg0 ctx PSCI_VERSION) s []
    else if psci_func_id = PSCI_SUSPEND_CPU_ARM32_FUNCTION_ID then
      match hv_psci_suspend_cpu env s w1 w2 w3 with
      | .ok retval s1 tr => .ret true (setReg0 ctx (u64ofInt retval)) s1 tr
      | .panicked s1 tr => .panicked s1 tr
    else if psci_func_id = PSCI_CPU_OFF_FUNCTION_ID then
      match hv_psci_turn_off_cpu env s with
      | .ok _ s1 tr => .ret true ctx s1 tr
      | .panicked s1 tr => .panicked s1 tr
    else if psci_func_id = PSCI_CPU_ON_ARM32_FUNCTION_ID then
      match hv_psci_turn_on_cpu env s w1 w2 w3 with
      | .ok retval s1 tr => .ret true (setReg0 ctx (u64ofInt retval)) s1 tr
      | .panicked s1 tr => .panicked s1 tr
    else if psci_func_id = PSCI_SYSTEM_POWEROFF_FUNCTION_ID then
      .noReturn s []
    else if psci_func_id = PSCI_SYSTEM_RESET_FUNCTION_ID then
      .noReturn s []
    else if psci_func_id = PSCI_FEATURES_FUNCTION_ID then
      .ret true (setReg0 ctx (u64ofInt (hv_psci_features w1))) s []
    else if psci_func_id = PSCI_MEM_PROTECT_FUNCTION_ID then
      .ret true (setReg0 ctx (hv_psci_mem_protect w1)) s []
    else if psci_func_id = PSCI_MEM_CHECK_RANGE_ARM32_FUNCTION_ID then
      .ret true (setReg0 ctx (u64ofInt (hv_psci_mem_protect_check_range w1 w2))) s []
    else
      .ret true (setReg0 ctx (u64ofInt PSCI_STATUS_NOT_SUPPORTED)) s []
  else
    if psci_func_id = PSCI_SUSPEND_CPU_ARM64_FUNCTION_ID then
      match hv_psci_suspend_cpu env s (ctx.regs.getD 1 0) (ctx.regs.getD 2 0)
          (ctx.regs.getD 3 0) with
      | .ok retval s1 tr => .ret true (setReg0 ctx (u64ofInt retval)) s1 tr
      | .panicked s1 tr => .panicked s1 tr
    else if psci_func_id = PSCI_CPU_ON_ARM64_FUNCTION_ID then
      match hv_psci_turn_on_cpu env s (ctx.regs.getD 1 0) (ctx.regs.getD 2 0)
          (ctx.regs.getD 3 0) with
      | .ok retval s1 tr => .ret true (setReg0 ctx (u64ofInt retval)) s1 tr
      | .panicked s1 tr => .panicked s1 tr
    else if psci_func_id = PSCI_MEM_CHECK_RANGE_ARM64_FUNCTION_ID then
      .ret true
        (setReg0 ctx (u64ofInt (hv_psci_mem_protect_check_range (ctx.regs.getD 1 0)
          (ctx.regs.getD 2 0)))) s []
    else
      .ret true ctx s []

/-- Outcomes of the `EC = SMC` branch of `hv_exc_sync` (hv_exc.c): the
guest resumes with `ELR` advanced past the SMC; or the handler returned
`false` and the exception falls through to `hv_exc_entry` and the generic
system-register / data-abort / proxy path; or nothing returns. -/
inductive SyncOutcome where
  | resumed (ctx : Ctx) (elr : Nat) (s : PsciState) (tr : List Event)
  | fellThrough (ctx : Ctx) (s : PsciState) (tr : List Event)
  | panicked (s : PsciState) (tr : List Event)
  | noReturn (s : PsciState) (tr : List Event)
deriving Repr, DecidableEq

/-- The `ESR_EC_SMC` case of `hv_exc_sync` (hv_exc.c): invoke
`hv_handle_psci_smc`; when it handled the call, `ctx->elr += 4` and return
to the guest; otherwise fall through to the generic path. -/
def hv_exc_sync_smc (env : Env) (ctx : Ctx) (elr : Nat) (s : PsciState) : SyncOutcome :=
  match hv_handle_psci_smc env ctx s with
  | .ret handled ctx1 s1 tr =>
      if handled then .resumed ctx1 ((elr + 4) % 2 ^ 64) s1 tr
      else .fellThrough ctx1 s1 tr
  | .panicked s1 tr => .panicked s1 tr
  | .noReturn s1 tr => .noReturn s1 tr

/-- The coordination rule as the specification states it: the coordinated
target at level `level` for the CPUs under the non-CPU node `ancestor` is
the numeric minimum of `requested[level-1][c]` over exactly the block of
CPUs starting at that ancestor's `first_cpu_idx` of length that ancestor's
`num_cpu_siblings`. -/
def specCoordinatedTarget (s : PsciState) (level ancestor : Nat) : Nat :=
  let n := getNonCpu s ancestor
  (((List.range n.num_cpu_siblings).map
      (fun k => getRequested s (level - 1) (n.first_cpu_idx + k))).min?).getD PSCI_OFF_STATE

/-- The CPUs (below `psci_num_cores`) whose parent walk
(`hv_psci_get_parent_nodes` up to `PSCI_MAX_POWER_LEVEL`) traverses the
non-CPU node `n`. -/
def cpusTraversing (s : PsciState) (n : Nat) : List Nat :=
  (List.range s.num_cores).filter
    (fun c => n ∈ hv_psci_get_parent_nodes s c PSCI_MAX_POWER_LEVEL)

/-- A fixed machine context for concrete runs: core 0 calling, no pending
interrupt, `gMaxOff = 3` (one of the possible values of the undefined
`hv_psci_find_max_off_level` fall-off). -/
def env0 : Env :=
  { cpu := 0, isr := 0, gMaxOff := 3, releaseAddr := fun _ => 0x800
    pmgrReg := 0x23b700000, cpuStartOff := 0x54000, pmgrDieOffset := 0x2000000000 }

/-- The T8103 tree after `hv_psci_init`'s two construction passes (with a
fixed choice for the uninitialised `nodes_index`; by
`update_limits_garbage_irrelevant`-style case analysis the result does not
depend on it). -/
def sT8103 : PsciState :=
  treeAfterInit apple_t8103_power_domain_tree_descriptor [3, 4]

/-- `sT8103` after `hv_psci_init_requested_local_power_states` and
`hv_psci_set_power_domains_to_on_state(PSCI_MAX_POWER_LEVEL)` executed by
the booting core, here core 4: the post-init state in which core 4 is ON
and every other core's requested states are OFF. -/
def sBoot : PsciState :=
  hv_psci_set_power_domains_to_on_state 4 PSCI_MAX_POWER_LEVEL
    (hv_psci_init_requested_local_power_states sT8103)

/-- `sBoot` after core 0 has also come online (its power domains set to ON),
the state from which core 0 issues PSCI calls in the concrete scenarios. -/
def sOn0 : PsciState :=
  hv_psci_set_power_domains_to_on_state 0 PSCI_MAX_POWER_LEVEL sBoot

/-- `env0` with a pending interrupt visible in `ISR_EL1`. -/
def envIsr : Env :=
  { env0 with isr := 0x80 }

/-- The lock indices locked by a trace, in order. -/
def lockedIndices (tr : List Event) : List Nat :=
  tr.filterMap fun e => match e with | .spinLock i => some i | _ => none

/-- The lock indices unlocked by a trace, in order. -/
def unlockedIndices (tr : List Event) : List Nat :=
  tr.filterMap fun e => match e with | .spinUnlock i => some i | _ => none

/-- Whether a trace contains a WFI. -/
def hasWfi (tr : List Event) : Bool :=
  tr.any fun e => match e with | .wfi _ => true | _ => false

/-- Whether an `SmcOutcome` is a normal return (as opposed to a panic or a
call that never returns). -/
def SmcOutcome.isRet : SmcOutcome → Bool
  | .ret _ _ _ _ => true
  | _ => false

/-- Whether an `SmcOutcome` is a normal return carrying `false` (the only
case in which `hv_exc_sync` would fall through to the generic path). -/
def SmcOutcome.isRetFalse : SmcOutcome → Bool
  | .ret handled _ _ _ => !handled
  | _ => false

/-- Whether a `SyncOutcome` fell through to the generic exception path. -/
def SyncOutcome.isFellThrough : SyncOutcome → Bool
  | .fellThrough _ _ _ => true
  | _ => false

/-- Writing inside bounds, then reading the same slot, yields the value. -/
theorem getD_set_self {α : Type} (l : List α) (i : Nat) (a d : α) (h : i < l.length) :
    (l.set i a).getD i d = a := by
  induction l generalizing i with
  | nil => simp at h
  | cons x xs ih =>
      cases i with
      | zero => rfl
      | succ n => simpa using ih n (by simpa using h)

/-- Writing one slot leaves every other slot unchanged. -/
theorem getD_set_of_ne {α : Type} (l : List α) (i j : Nat) (a d : α) (h : i ≠ j) :
    (l.set i a).getD j d = l.getD j d := by
  induction l generalizing i j with
  | nil => rfl
  | cons x xs ih =>
      cases i with
      | zero => cases j with
          | zero => exact absurd rfl h
          | succ m => rfl
      | succ n => cases j with
          | zero => rfl
          | succ m => simpa using ih n m (by omega)

/-- `hv_psci_set_requested_local_power_state` touches only the matrix. -/
theorem set_requested_fields (s : PsciState) (pl c v : Nat) :
    (hv_psci_set_requested_local_power_state s pl c v).num_cores = s.num_cores ∧
    (hv_psci_set_requested_local_power_state s pl c v).non_cpu_nodes = s.non_cpu_nodes ∧
    (hv_psci_set_requested_local_power_state s pl c v).cpu_nodes = s.cpu_nodes ∧
    (hv_psci_set_requested_local_power_state s pl c v).cpu_data = s.cpu_data := by
  unfold hv_psci_set_requested_local_power_state
  split <;> exact ⟨rfl, rfl, rfl, rfl⟩

/-- Rows other than the written one are untouched by
`hv_psci_set_requested_local_power_state`. -/
theorem getRow_set_requested_of_ne (s : PsciState) (pl c v r : Nat) (h : r + 1 ≠ pl) :
    (hv_psci_set_requested_local_power_state s pl c v).requested.getD r [] =
      s.requested.getD r [] := by
  unfold hv_psci_set_requested_local_power_state
  split
  · rename_i hg
    exact getD_set_of_ne _ _ _ _ _ (by omega)
  · rfl

/-- Reading back the entry just written by
`hv_psci_set_requested_local_power_state` (under the source's guard and the
array bounds). -/
theorem getRequested_set_requested_self (s : PsciState) (pl c v : Nat)
    (hg : 0 < pl ∧ pl ≤ PSCI_MAX_POWER_LEVEL ∧ c < s.num_cores)
    (hrow : pl - 1 < s.requested.length)
    (hcol : c < (s.requested.getD (pl - 1) []).length) :
    getRequested (hv_psci_set_requested_local_power_state s pl c v) (pl - 1) c = v := by
  unfold hv_psci_set_requested_local_power_state getRequested
  rw [if_pos hg]
  simp only
  rw [getD_set_self _ _ _ _ hrow, getD_set_self _ _ _ _ hcol]

/-- An out-of-bounds `List.set` is a no-op. -/
theorem set_of_length_le {α : Type} (l : List α) (i : Nat) (a : α) (h : l.length ≤ i) :
    l.set i a = l := by
  induction l generalizing i with
  | nil => rfl
  | cons x xs ih =>
      cases i with
      | zero => simp at h
      | succ n => simpa using ih n (by simpa using h)

/-- Row lengths survive `hv_psci_set_requested_local_power_state`. -/
theorem rowLength_set_requested (s : PsciState) (pl c v r : Nat) :
    ((hv_psci_set_requested_local_power_state s pl c v).requested.getD r []).length =
      (s.requested.getD r []).length := by
  unfold hv_psci_set_requested_local_power_state
  split
  · simp only
    by_cases h : r = pl - 1
    · subst h
      by_cases hr : pl - 1 < s.requested.length
      · rw [getD_set_self _ _ _ _ hr]
        simp
      · rw [set_of_length_le s.requested (pl - 1) _ (by omega)]
    · rw [getD_set_of_ne _ _ _ _ _ (by omega)]
  · rfl

/-- The matrix keeps its number of rows as well. -/
theorem length_set_requested (s : PsciState) (pl c v : Nat) :
    (hv_psci_set_requested_local_power_state s pl c v).requested.length =
      s.requested.length := by
  unfold hv_psci_set_requested_local_power_state
  split <;> simp

/-- Reading past the end yields the default. -/
theorem getD_eq_default_of_le {α : Type} (l : List α) (i : Nat) (d : α) (h : l.length ≤ i) :
    l.getD i d = d := by
  induction l generalizing i with
  | nil => rfl
  | cons x xs ih =>
      cases i with
      | zero => simp at h
      | succ n => simpa using ih n (by simpa using h)

/-- Writing the default value and reading the slot back always yields the
default, whether or not the write was in bounds. -/
theorem getD_set_same {α : Type} (l : List α) (i : Nat) (d : α) :
    (l.set i d).getD i d = d := by
  by_cases h : i < l.length
  · exact getD_set_self l i d d h
  · rw [set_of_length_le l i d (by omega), getD_eq_default_of_le l i d (by omega)]

/-- The coordination loop's exit level is at least its entry level. -/
theorem coordLoop_level_ge (cpu end_power_level : Nat) :
    ∀ (fuel level parent : Nat) (s : PsciState) (info : List Nat),
      level ≤ (coordLoop cpu end_power_level fuel level parent s info).level := by
  intro fuel
  induction fuel with
  | zero => intro level parent s info; simp [coordLoop]
  | succ n ih =>
      intro level parent s info
      simp only [coordLoop]
      split
      · split
        · simp
        · exact Nat.le_of_succ_le (ih _ _ _ _)
      · simp

/-- The coordination loop leaves `state_info` untouched strictly above its
exit level. -/
theorem coordLoop_info_high (cpu end_power_level : Nat) :
    ∀ (fuel level parent : Nat) (s : PsciState) (info : List Nat) (l : Nat),
      (coordLoop cpu end_power_level fuel level parent s info).level < l →
      (coordLoop cpu end_power_level fuel level parent s info).info.getD l 0 =
        info.getD l 0 := by
  intro fuel
  induction fuel with
  | zero => intro level parent s info l _; rfl
  | succ n ih =>
      intro level parent s info l hl
      simp only [coordLoop] at hl ⊢
      by_cases hc : level ≤ end_power_level
      · rw [if_pos hc] at hl ⊢
        set s1 := hv_psci_set_requested_local_power_state s level cpu (info.getD level 0)
          with hs1
        set t := hv_psci_get_target_power_state level (s1.requested.getD (level - 1) [])
          (getNonCpu s1 parent).first_cpu_idx (getNonCpu s1 0).num_cpu_siblings with ht
        set info1 := info.set level t with hinfo1
        by_cases hb : info1.getD level 0 = PSCI_ON_STATE
        · rw [if_pos hb] at hl ⊢
          simp only at hl ⊢
          rw [hinfo1]
          exact getD_set_of_ne _ _ _ _ _ (by omega)
        · rw [if_neg hb] at hl ⊢
          have hge := coordLoop_level_ge cpu end_power_level n (level + 1)
            (getNonCpu s1 parent).parent_node s1 info1
          rw [ih _ _ _ _ _ hl, hinfo1]
          exact getD_set_of_ne _ _ _ _ _ (by omega)
      · rw [if_neg hc] at hl ⊢

/-- The coordination loop does not change `psci_num_cores`. -/
theorem coordLoop_num_cores (cpu end_power_level : Nat) :
    ∀ (fuel level parent : Nat) (s : PsciState) (info : List Nat),
      (coordLoop cpu end_power_level fuel level parent s info).s.num_cores = s.num_cores := by
  intro fuel
  induction fuel with
  | zero => intro level parent s info; rfl
  | succ n ih =>
      intro level parent s info
      simp only [coordLoop]
      by_cases hc : level ≤ end_power_level
      · rw [if_pos hc]
        set s1 := hv_psci_set_requested_local_power_state s level cpu (info.getD level 0)
          with hs1
        set t := hv_psci_get_target_power_state level (s1.requested.getD (level - 1) [])
          (getNonCpu s1 parent).first_cpu_idx (getNonCpu s1 0).num_cpu_siblings with ht
        set info1 := info.set level t with hinfo1
        have hfields := (set_requested_fields s level cpu (info.getD level 0)).1
        by_cases hb : info1.getD level 0 = PSCI_ON_STATE
        · rw [if_pos hb]
          exact hfields
        · rw [if_neg hb, ih]
          exact hfields
      · rw [if_neg hc]

/-- The coordination loop does not change the number of matrix rows. -/
theorem coordLoop_req_length (cpu end_power_level : Nat) :
    ∀ (fuel level parent : Nat) (s : PsciState) (info : List Nat),
      (coordLoop cpu end_power_level fuel level parent s info).s.requested.length =
        s.requested.length := by
  intro fuel
  induction fuel with
  | zero => intro level parent s info; rfl
  | succ n ih =>
      intro level parent s info
      simp only [coordLoop]
      by_cases hc : level ≤ end_power_level
      · rw [if_pos hc]
        set s1 := hv_psci_set_requested_local_power_state s level cpu (info.getD level 0)
          with hs1
        set t := hv_psci_get_target_power_state level (s1.requested.getD (level - 1) [])
          (getNonCpu s1 parent).first_cpu_idx (getNonCpu s1 0).num_cpu_siblings with ht
        set info1 := info.set level t with hinfo1
        have hlen := length_set_requested s level cpu (info.getD level 0)
        by_cases hb : info1.getD level 0 = PSCI_ON_STATE
        · rw [if_pos hb]
          exact hlen
        · rw [if_neg hb, ih]
          exact hlen
      · rw [if_neg hc]

/-- The coordination loop leaves every matrix row at or above its exit level
untouched (it writes the rows `entry level - 1 .. exit level - 1` only). -/
theorem coordLoop_row_high (cpu end_power_level : Nat) :
    ∀ (fuel level parent : Nat) (s : PsciState) (info : List Nat) (r : Nat),
      (coordLoop cpu end_power_level fuel level parent s info).level ≤ r →
      (coordLoop cpu end_power_level fuel level parent s info).s.requested.getD r [] =
        s.requested.getD r [] := by
  intro fuel
  induction fuel with
  | zero => intro level parent s info r _; rfl
  | succ n ih =>
      intro level parent s info r hr
      simp only [coordLoop] at hr ⊢
      by_cases hc : level ≤ end_power_level
      · rw [if_pos hc] at hr ⊢
        set s1 := hv_psci_set_requested_local_power_state s level cpu (info.getD level 0)
          with hs1
        set t := hv_psci_get_target_power_state level (s1.requested.getD (level - 1) [])
          (getNonCpu s1 parent).first_cpu_idx (getNonCpu s1 0).num_cpu_siblings with ht
        set info1 := info.set level t with hinfo1
        by_cases hb : info1.getD level 0 = PSCI_ON_STATE
        · rw [if_pos hb] at hr ⊢
          simp only at hr ⊢
          rw [hs1]
          exact getRow_set_requested_of_ne s level cpu _ r (by omega)
        · rw [if_neg hb] at hr ⊢
          have hge := coordLoop_level_ge cpu end_power_level n (level + 1)
            (getNonCpu s1 parent).parent_node s1 info1
          rw [ih _ _ _ _ _ hr, hs1]
          exact getRow_set_requested_of_ne s level cpu _ r (by omega)
      · rw [if_neg hc] at hr ⊢

/-- The fix-up loop does not change `psci_num_cores`. -/
theorem coordRemaining_num_cores (cpu end_power_level : Nat) :
    ∀ (fuel level : Nat) (s : PsciState) (info : List Nat),
      (coordRemaining cpu end_power_level fuel level s info).1.num_cores = s.num_cores := by
  intro fuel
  induction fuel with
  | zero => intro level s info; rfl
  | succ n ih =>
      intro level s info
      simp only [coordRemaining]
      by_cases hc : level ≤ end_power_level
      · rw [if_pos hc, ih]
        exact (set_requested_fields s level cpu _).1
      · rw [if_neg hc]

/-- The fix-up loop leaves `state_info` untouched strictly below its entry
level. -/
theorem coordRemaining_info_low (cpu end_power_level : Nat) :
    ∀ (fuel level : Nat) (s : PsciState) (info : List Nat) (l : Nat), l < level →
      (coordRemaining cpu end_power_level fuel level s info).2.getD l 0 = info.getD l 0 := by
  intro fuel
  induction fuel with
  | zero => intro level s info l _; rfl
  | succ n ih =>
      intro level s info l hl
      simp only [coordRemaining]
      by_cases hc : level ≤ end_power_level
      · rw [if_pos hc, ih _ _ _ _ (by omega)]
        exact getD_set_of_ne _ _ _ _ _ (by omega)
      · rw [if_neg hc]

/-- The fix-up loop leaves every matrix row strictly below its entry level
untouched. -/
theorem coordRemaining_row_low (cpu end_power_level : Nat) :
    ∀ (fuel level : Nat) (s : PsciState) (info : List Nat) (r : Nat), r + 1 < level →
      (coordRemaining cpu end_power_level fuel level s info).1.requested.getD r [] =
        s.requested.getD r [] := by
  intro fuel
  induction fuel with
  | zero => intro level s info r _; rfl
  | succ n ih =>
      intro level s info r hr
      simp only [coordRemaining]
      by_cases hc : level ≤ end_power_level
      · rw [if_pos hc, ih _ _ _ _ (by omega)]
        exact getRow_set_requested_of_ne s level cpu _ r (by omega)
      · rw [if_neg hc]

/-- After the fix-up loop, `state_info[l]` is `PSCI_ON_STATE` for every level
`l` in `entry level .. end_power_level` (given enough fuel). -/
theorem coordRemaining_info_on (cpu end_power_level : Nat) :
    ∀ (fuel level : Nat) (s : PsciState) (info : List Nat) (l : Nat),
      level ≤ l → l ≤ end_power_level → l < level + fuel →
      (coordRemaining cpu end_power_level fuel level s info).2.getD l 0 = PSCI_ON_STATE := by
  intro fuel
  induction fuel with
  | zero => intro level s info l h1 h2 h3; omega
  | succ n ih =>
      intro level s info l h1 h2 h3
      simp only [coordRemaining]
      rw [if_pos (show level ≤ end_power_level by omega)]
      by_cases hl : l = level
      · subst hl
        rw [coordRemaining_info_low cpu end_power_level n (l + 1) _ _ l (by omega)]
        exact getD_set_same _ _ _
      · exact ih (l := l) (level + 1) _ _ (by omega) h2 (by omega)

/-- After the fix-up loop, the matrix entry `requested[l-1][cpu]` holds the
entry value `state_info[l]` for every level `l` in
`entry level .. end_power_level` (under the write guard's conditions and the
array bounds). -/
theorem coordRemaining_requested (cpu end_power_level : Nat) :
    ∀ (fuel level : Nat) (s : PsciState) (info : List Nat) (l : Nat),
      level ≤ l → l ≤ end_power_level → 0 < l → l ≤ PSCI_MAX_POWER_LEVEL →
      cpu < s.num_cores → l - 1 < s.requested.length →
      cpu < (s.requested.getD (l - 1) []).length → l < level + fuel →
      getRequested (coordRemaining cpu end_power_level fuel level s info).1 (l - 1) cpu =
        info.getD l 0 := by
  intro fuel
  induction fuel with
  | zero => intro level s info l h1 h2 h3 h4 h5 h6 h7 h8; omega
  | succ n ih =>
      intro level s info l h1 h2 h3 h4 h5 h6 h7 h8
      simp only [coordRemaining]
      rw [if_pos (show level ≤ end_power_level by omega)]
      by_cases hl : l = level
      · subst hl
        unfold getRequested
        rw [coordRemaining_row_low cpu end_power_level n (l + 1) _ _ (l - 1) (by omega)]
        have hw := getRequested_set_requested_self s l cpu (info.getD l 0) ⟨h3, h4, h5⟩ h6 h7
        unfold getRequested at hw
        exact hw
      · rw [ih (l := l) (level + 1) _ _ (by omega) h2 h3 h4 ?_ ?_ ?_ (by omega)]
        · exact getD_set_of_ne _ _ _ _ _ (by omega)
        · rw [(set_requested_fields s level cpu _).1]; exact h5
        · rw [length_set_requested]; exact h6
        · rw [rowLength_set_requested]; exact h7

/-- `setTargetLoop` never touches the requested-state matrix. -/
theorem setTargetLoop_requested (end_power_level : Nat) (info : List Nat) :
    ∀ (fuel level parent : Nat) (s : PsciState),
      (setTargetLoop end_power_level info fuel level parent s).requested = s.requested := by
  intro fuel
  induction fuel with
  | zero => intro level parent s; rfl
  | succ n ih =>
      intro level parent s
      simp only [setTargetLoop]
      by_cases hc : level ≤ end_power_level
      · rw [if_pos hc, ih]
        rfl
      · rw [if_neg hc]

/-- `hv_psci_set_target_local_power_states` never touches the
requested-state matrix. -/
theorem set_target_requested (cpu end_power_level : Nat) (s : PsciState) (info : List Nat) :
    (hv_psci_set_target_local_power_states cpu end_power_level s info).requested =
      s.requested := by
  unfold hv_psci_set_target_local_power_states
  rw [setTargetLoop_requested]
  rfl

/-- `hv_psci_coordinate_power_states` unpacked: the final state is
`hv_psci_set_target_local_power_states` of the fix-up loop's state (by
structure eta this is a definitional equality). -/
theorem coordinate_fst (cpu end_power_level : Nat) (s : PsciState) (info : List Nat) :
    (hv_psci_coordinate_power_states cpu end_power_level s info).1 =
      hv_psci_set_target_local_power_states cpu end_power_level
        (coordRemaining cpu end_power_level (end_power_level + 1)
          ((coordLoop cpu end_power_level (end_power_level + 1) 1
            (getCpuNode s cpu).parent_node s info).level + 1)
          (coordLoop cpu end_power_level (end_power_level + 1) 1
            (getCpuNode s cpu).parent_node s info).s
          (coordLoop cpu end_power_level (end_power_level + 1) 1
            (getCpuNode s cpu).parent_node s info).info).1
        (coordRemaining cpu end_power_level (end_power_level + 1)
          ((coordLoop cpu end_power_level (end_power_level + 1) 1
            (getCpuNode s cpu).parent_node s info).level + 1)
          (coordLoop cpu end_power_level (end_power_level + 1) 1
            (getCpuNode s cpu).parent_node s info).s
          (coordLoop cpu end_power_level (end_power_level + 1) 1
            (getCpuNode s cpu).parent_node s info).info).2 := rfl

/-- `hv_psci_coordinate_power_states` returns the fix-up loop's
`state_info`. -/
theorem coordinate_snd (cpu end_power_level : Nat) (s : PsciState) (info : List Nat) :
    (hv_psci_coordinate_power_states cpu end_power_level s info).2 =
      (coordRemaining cpu end_power_level (end_power_level + 1)
        ((coordLoop cpu end_power_level (end_power_level + 1) 1
          (getCpuNode s cpu).parent_node s info).level + 1)
        (coordLoop cpu end_power_level (end_power_level + 1) 1
          (getCpuNode s cpu).parent_node s info).s
        (coordLoop cpu end_power_level (end_power_level + 1) 1
          (getCpuNode s cpu).parent_node s info).info).2 := rfl

/-- C2 (amended): whenever the coordination loop breaks early (its exit
level is below a level `l ≤ end_power_level`),
`hv_psci_coordinate_power_states` writes, for each such remaining level `l`,
the still-uncoordinated caller value `state_info[l]` — not `PSCI_ON_STATE` —
into `requested[l-1][cpu]`, and sets `state_info[l]` itself to
`PSCI_ON_STATE`. -/
theorem c2_amended_remaining_levels (s : PsciState) (info : List Nat)
    (cpu end_power_level l : Nat)
    (hbreak : (coordLoop cpu end_power_level (end_power_level + 1) 1
        (getCpuNode s cpu).parent_node s info).level < l)
    (hl : l ≤ end_power_level) (hl2 : l ≤ PSCI_MAX_POWER_LEVEL)
    (hcpu : cpu < s.num_cores)
    (hrow : l - 1 < s.requested.length)
    (hcol : cpu < (s.requested.getD (l - 1) []).length) :
    getRequested (hv_psci_coordinate_power_states cpu end_power_level s info).1 (l - 1) cpu =
      info.getD l 0 ∧
    (hv_psci_coordinate_power_states cpu end_power_level s info).2.getD l 0 =
      PSCI_ON_STATE := by
  have hr1 : getRequested (coordRemaining cpu end_power_level (end_power_level + 1)
      ((coordLoop cpu end_power_level (end_power_level + 1) 1
        (getCpuNode s cpu).parent_node s info).level + 1)
      (coordLoop cpu end_power_level (end_power_level + 1) 1
        (getCpuNode s cpu).parent_node s info).s
      (coordLoop cpu end_power_level (end_power_level + 1) 1
        (getCpuNode s cpu).parent_node s info).info).1 (l - 1) cpu =
      (coordLoop cpu end_power_level (end_power_level + 1) 1
        (getCpuNode s cpu).parent_node s info).info.getD l 0 := by
    apply coordRemaining_requested cpu end_power_level (end_power_level + 1) _ _ _ l
      (by omega) hl (by omega) hl2 ?_ ?_ ?_ (by omega)
    · rw [coordLoop_num_cores]; exact hcpu
    · rw [coordLoop_req_length]; exact hrow
    · rw [coordLoop_row_high cpu end_power_level _ _ _ _ _ (l - 1) (by omega)]; exact hcol
  constructor
  · rw [coordinate_fst]
    unfold getRequested
    rw [set_target_requested]
    unfold getRequested at hr1
    rw [hr1]
    exact coordLoop_info_high cpu end_power_level _ _ _ _ _ l hbreak
  · rw [coordinate_snd]
    exact coordRemaining_info_on cpu end_power_level (end_power_level + 1) _ _ _ l
      (by omega) hl (by omega)

/-- C2 (witness for the amended claim): in the concrete `sBoot` cpu-off run
the loop breaks at level 1; for the remaining level 2 the matrix entry
`requested[1][0]` receives the caller's OFF request and `state_info[2]`
becomes `PSCI_ON_STATE`. -/
theorem c2_amended_remaining_levels_witness :
    (coordLoop 0 PSCI_MAX_POWER_LEVEL (PSCI_MAX_POWER_LEVEL + 1) 1
        (getCpuNode sBoot 0).parent_node sBoot
        (hv_psci_construct_poweroff_state [0, 0, 0])).level < 2 ∧
    getRequested (hv_psci_coordinate_power_states 0 PSCI_MAX_POWER_LEVEL sBoot
        (hv_psci_construct_poweroff_state [0, 0, 0])).1 1 0 =
      (hv_psci_construct_poweroff_state [0, 0, 0]).getD 2 0 ∧
    (hv_psci_coordinate_power_states 0 PSCI_MAX_POWER_LEVEL sBoot
        (hv_psci_construct_poweroff_state [0, 0, 0])).2.getD 2 0 = PSCI_ON_STATE := by
  have h := c2_amended_remaining_levels sBoot (hv_psci_construct_poweroff_state [0, 0, 0])
    0 PSCI_MAX_POWER_LEVEL 2 (by decide) (by decide) (by decide) (by decide) (by decide)
    (by decide)
  exact ⟨by decide, h.1, h.2⟩
/-- C1: the claim fails on the code.  At the post-init T8103 state `sBoot`
(core 4 ON, all other cores' requested states OFF), core 0 coordinates an
all-OFF request up to `PSCI_MAX_POWER_LEVEL` (the `cpu_off` coordination).
The coordinated target the code writes for level 1 — into `state_info[1]`
and into the level-1 ancestor's `local_power_state` — is `PSCI_ON_STATE`,
but the numeric minimum of `requested[0][c]` over exactly the block starting
at that ancestor's `first_cpu_idx` (0) of length that ancestor's
`num_cpu_siblings` (4) is `PSCI_OFF_STATE`: `hv_psci_coordinate_power_states`
reads the sibling count from `psci_non_cpu_nodes->num_cpu_siblings`, i.e.
from node 0 (the root, count 8), not from `[parent_index]`, so the scan
window also covers the other cluster's CPUs, one of which (core 4) is ON. -/
theorem c1_level1_target_is_not_ancestor_block_min :
    (hv_psci_coordinate_power_states 0 PSCI_MAX_POWER_LEVEL sBoot
        (hv_psci_construct_poweroff_state [0, 0, 0])).2.getD 1 0 = PSCI_ON_STATE ∧
    (getNonCpu (hv_psci_coordinate_power_states 0 PSCI_MAX_POWER_LEVEL sBoot
        (hv_psci_construct_poweroff_state [0, 0, 0])).1 1).local_power_state = PSCI_ON_STATE ∧
    specCoordinatedTarget (hv_psci_coordinate_power_states 0 PSCI_MAX_POWER_LEVEL sBoot
        (hv_psci_construct_poweroff_state [0, 0, 0])).1 1 1 = PSCI_OFF_STATE ∧
    PSCI_ON_STATE ≠ PSCI_OFF_STATE := by
  decide

/-- C2 (counterexample): in the same run as `c1`, the coordination loop
breaks early at level 1 because the coordinated state there is
`PSCI_ON_STATE`, the end power level is 2, and for the remaining level 2 the
final requested-state entry `requested[1][0]` is `PSCI_OFF_STATE`, not the
`PSCI_ON_STATE` the claim says the function forces into it. -/
theorem c2_remaining_level_requested_entry_not_on :
    (coordLoop 0 PSCI_MAX_POWER_LEVEL (PSCI_MAX_POWER_LEVEL + 1) 1
        (getCpuNode sBoot 0).parent_node sBoot
        (hv_psci_construct_poweroff_state [0, 0, 0])).level = 1 ∧
    (coordLoop 0 PSCI_MAX_POWER_LEVEL (PSCI_MAX_POWER_LEVEL + 1) 1
        (getCpuNode sBoot 0).parent_node sBoot
        (hv_psci_construct_poweroff_state [0, 0, 0])).info.getD 1 0 = PSCI_ON_STATE ∧
    getRequested (hv_psci_coordinate_power_states 0 PSCI_MAX_POWER_LEVEL sBoot
        (hv_psci_construct_poweroff_state [0, 0, 0])).1 1 0 = PSCI_OFF_STATE ∧
    PSCI_OFF_STATE ≠ PSCI_ON_STATE := by
  decide

/-- C3: the claim fails on the code.  With `end_power_level =
PSCI_MAX_POWER_LEVEL = 2` and core 0's parent list on the post-init T8103
state, `hv_psci_acquire_power_domain_tree_locks` (whose loop runs for
`level < end_power_level`) takes only the level-1 lock (index 1), while
`hv_psci_release_power_domain_tree_locks` (whose loop runs from
`end_power_level` down to 1) releases the locks with indices 0 and 1: it is
not the exact reverse of the acquisition, and it releases lock 0, which was
never acquired. -/
theorem c3_release_is_not_reverse_of_acquire :
    hv_psci_acquire_power_domain_tree_locks sBoot PSCI_MAX_POWER_LEVEL
        (hv_psci_get_parent_nodes sBoot 0 PSCI_MAX_POWER_LEVEL) = [Event.spinLock 1] ∧
    hv_psci_release_power_domain_tree_locks sBoot PSCI_MAX_POWER_LEVEL
        (hv_psci_get_parent_nodes sBoot 0 PSCI_MAX_POWER_LEVEL) =
      [Event.spinUnlock 0, Event.spinUnlock 1] ∧
    unlockedIndices (hv_psci_release_power_domain_tree_locks sBoot PSCI_MAX_POWER_LEVEL
        (hv_psci_get_parent_nodes sBoot 0 PSCI_MAX_POWER_LEVEL)) ≠
      (lockedIndices (hv_psci_acquire_power_domain_tree_locks sBoot PSCI_MAX_POWER_LEVEL
        (hv_psci_get_parent_nodes sBoot 0 PSCI_MAX_POWER_LEVEL))).reverse ∧
    0 ∈ unlockedIndices (hv_psci_release_power_domain_tree_locks sBoot PSCI_MAX_POWER_LEVEL
        (hv_psci_get_parent_nodes sBoot 0 PSCI_MAX_POWER_LEVEL)) ∧
    0 ∉ lockedIndices (hv_psci_acquire_power_domain_tree_locks sBoot PSCI_MAX_POWER_LEVEL
        (hv_psci_get_parent_nodes sBoot 0 PSCI_MAX_POWER_LEVEL)) := by
  decide

/-- C4: the claim fails on the code for SMC64 IDs.  For the unknown SMC32
function ID `0x84000099` the dispatcher writes `NOT_SUPPORTED` (`-1` as a
64-bit register value) into X0 as claimed, but for the unknown SMC64
function ID `0xC4000099` (bit 30 set) the SMC64 switch has no default arm,
so X0 is left holding the function ID instead of `-1`. -/
theorem c4_unknown_smc64_id_leaves_x0_unchanged :
    hv_handle_psci_smc env0 ⟨[0x84000099, 0, 0, 0]⟩ sBoot =
      SmcOutcome.ret true ⟨[0xFFFFFFFFFFFFFFFF, 0, 0, 0]⟩ sBoot [] ∧
    hv_handle_psci_smc env0 ⟨[0xC4000099, 0, 0, 0]⟩ sBoot =
      SmcOutcome.ret true ⟨[0xC4000099, 0, 0, 0]⟩ sBoot [] ∧
    (0xC4000099 : Nat) ≠ 0xFFFFFFFFFFFFFFFF := by
  decide

/-- A fold of the translation scan over CPUs none of which matches keeps the
accumulator. -/
theorem translateScan_no_match_aux (s : PsciState) (mpidr : Nat) :
    ∀ (l : List Nat) (acc : Nat), (∀ i ∈ l, mpidr ≠ (getCpuData s i).reg_value) →
      l.foldl (fun result i => if mpidr = (getCpuData s i).reg_value then i else result) acc =
        acc := by
  intro l
  induction l with
  | nil => intro acc _; rfl
  | cons x xs ih =>
      intro acc h
      simp only [List.foldl_cons]
      rw [if_neg (h x (by simp))]
      exact ih acc fun i hi => h i (by simp [hi])

/-- C5 (amended): when no stored `reg_value` equals the low 16 bits of the
target MPIDR, `hv_psci_turn_on_cpu` panics (in
`hv_psci_translate_mpidr_to_cpu`); it does not return `INVALID_PARAMETERS`
or anything else to the guest. -/
theorem c5_amended_cpu_on_unknown_mpidr_panics (env : Env) (s : PsciState)
    (target_cpu entry_point context_id : Nat)
    (h : ∀ i, i < MAX_CPUS →
      (getCpuData s i).reg_value ≠ target_cpu % 2 ^ 32 &&& 0x0000ffff) :
    hv_psci_turn_on_cpu env s target_cpu entry_point context_id = Res.panicked s [] := by
  unfold hv_psci_turn_on_cpu hv_psci_translate_mpidr_to_cpu
  have hscan : translateScan s (target_cpu % 2 ^ 32 &&& 0x0000ffff) = 0xff := by
    unfold translateScan
    exact translateScan_no_match_aux s _ _ 0xff
      fun i hi => Ne.symm (h i (by simpa using hi))
  simp only [hscan]
  rfl

/-- C5 (witness for the amended claim): the concrete no-match call panics. -/
theorem c5_amended_cpu_on_unknown_mpidr_panics_witness :
    hv_psci_turn_on_cpu env0 sBoot 0x9999 0x8000 0 = Res.panicked sBoot [] :=
  c5_amended_cpu_on_unknown_mpidr_panics env0 sBoot 0x9999 0x8000 0 (by decide)

/-- Reading back the per-CPU record just written by
`hv_psci_set_cpu_local_state`. -/
theorem getCpuData_set_cpu_local_state (cpu : Nat) (s : PsciState) (v : Nat)
    (h : cpu < s.cpu_data.length) :
    getCpuData (hv_psci_set_cpu_local_state cpu s v) cpu =
      { getCpuData s cpu with local_cpu_state := v } := by
  unfold hv_psci_set_cpu_local_state getCpuData
  exact getD_set_self _ _ _ _ h

/-- `hv_psci_set_cpu_local_state` keeps the per-CPU array's length. -/
theorem length_set_cpu_local_state (cpu : Nat) (s : PsciState) (v : Nat) :
    (hv_psci_set_cpu_local_state cpu s v).cpu_data.length = s.cpu_data.length := by
  unfold hv_psci_set_cpu_local_state
  simp

/-- C6: a validated standby-only suspend request (`is_power_down = 0` and
target level 0) takes the fast path: the calling CPU's `local_cpu_state` is
set to the requested state `state_info[0]` before the WFI executes (the WFI
event's snapshot), it is restored to `PSCI_ON_STATE` on wake,
`PSCI_STATUS_SUCCESS` is returned, and the requested-state matrix and the
non-CPU nodes (hence every level above 0) are untouched. -/
theorem c6_standby_round_trip (env : Env) (s : PsciState)
    (power_state cpu_reentry_addr context : Nat) (info : List Nat)
    (hval : hv_psci_validate_power_state (power_state % 2 ^ 32) = some info)
    (hpd : hv_psci_power_state_get_type (power_state % 2 ^ 32) = 0)
    (hreq : hv_psci_validate_suspend_request env.gMaxOff info 0 = PSCI_STATUS_SUCCESS)
    (htl : hv_psci_find_target_suspend_level info = 0)
    (hcpu : env.cpu < s.cpu_data.length) :
    hv_psci_suspend_cpu env s power_state cpu_reentry_addr context =
      Res.ok PSCI_STATUS_SUCCESS
        (hv_psci_set_cpu_local_state env.cpu
          (hv_psci_set_cpu_local_state env.cpu s (info.getD 0 0)) PSCI_ON_STATE)
        [Event.wfi (hv_psci_set_cpu_local_state env.cpu s (info.getD 0 0))] ∧
    (getCpuData (hv_psci_set_cpu_local_state env.cpu s (info.getD 0 0))
        env.cpu).local_cpu_state = info.getD 0 0 ∧
    (getCpuData (hv_psci_set_cpu_local_state env.cpu
        (hv_psci_set_cpu_local_state env.cpu s (info.getD 0 0)) PSCI_ON_STATE)
        env.cpu).local_cpu_state = PSCI_ON_STATE ∧
    (hv_psci_set_cpu_local_state env.cpu
        (hv_psci_set_cpu_local_state env.cpu s (info.getD 0 0)) PSCI_ON_STATE).requested =
      s.requested ∧
    (hv_psci_set_cpu_local_state env.cpu
        (hv_psci_set_cpu_local_state env.cpu s (info.getD 0 0)) PSCI_ON_STATE).non_cpu_nodes =
      s.non_cpu_nodes := by
  refine ⟨?_, ?_, ?_, rfl, rfl⟩
  · unfold hv_psci_suspend_cpu
    rw [hval]
    simp only
    rw [if_neg (by rw [hpd, hreq]; simp), htl, hpd]
    rw [if_pos (by unfold hv_psci_is_cpu_standby_requested; simp)]
    rfl
  · rw [getCpuData_set_cpu_local_state env.cpu s _ hcpu]
  · rw [getCpuData_set_cpu_local_state env.cpu _ _
      (by simpa [length_set_cpu_local_state] using hcpu)]

/-- C6 (witness): from the concrete all-on T8103 state, core 0 suspends with
`power_state = 0x1` (core standby); the round trip holds. -/
theorem c6_standby_round_trip_witness :
    hv_psci_validate_power_state 1 = some [1, 0, 0] ∧
    hv_psci_suspend_cpu env0 sOn0 1 0 0 =
      Res.ok PSCI_STATUS_SUCCESS
        (hv_psci_set_cpu_local_state env0.cpu
          (hv_psci_set_cpu_local_state env0.cpu sOn0 1) PSCI_ON_STATE)
        [Event.wfi (hv_psci_set_cpu_local_state env0.cpu sOn0 1)] ∧
    (hv_psci_set_cpu_local_state env0.cpu
        (hv_psci_set_cpu_local_state env0.cpu sOn0 1) PSCI_ON_STATE).requested =
      sOn0.requested := by
  have h := c6_standby_round_trip env0 sOn0 1 0 0 [1, 0, 0] (by decide) (by decide)
    (by decide) (by decide) (by decide)
  exact ⟨by decide, h.1, h.2.2.2.1⟩

/-- Every event the acquire loop emits is a `spinLock`, so it never contains
a WFI. -/
theorem hasWfi_acquireLoop (s : PsciState) (end_power_level : Nat) (parent_nodes : List Nat) :
    ∀ (fuel level : Nat), hasWfi (acquireLoop s end_power_level parent_nodes fuel level) =
      false := by
  intro fuel
  induction fuel with
  | zero => intro level; rfl
  | succ n ih =>
      intro level
      simp only [acquireLoop]
      by_cases hc : level < end_power_level
      · rw [if_pos hc]
        have h := ih (level + 1)
        simp only [hasWfi, List.any_cons] at h ⊢
        simpa using h
      · rw [if_neg hc]
        rfl

/-- Every event the release loop emits is a `spinUnlock`, so it never
contains a WFI. -/
theorem hasWfi_releaseLoop (s : PsciState) (parent_nodes : List Nat) :
    ∀ (n : Nat), hasWfi (releaseLoop s parent_nodes n) = false := by
  intro n
  induction n with
  | zero => rfl
  | succ m ih => simpa [hasWfi, releaseLoop] using ih

/-- `hasWfi` distributes over append. -/
theorem hasWfi_append (a b : List Event) : hasWfi (a ++ b) = (hasWfi a || hasWfi b) := by
  simp [hasWfi, List.any_append]

/-- `hv_psci_acquire_power_domain_tree_locks` emits no WFI. -/
theorem hasWfi_acquire_locks (s : PsciState) (end_power_level : Nat) (parent_nodes : List Nat) :
    hasWfi (hv_psci_acquire_power_domain_tree_locks s end_power_level parent_nodes) = false :=
  hasWfi_acquireLoop s end_power_level parent_nodes (end_power_level + 1) 1

/-- `hv_psci_release_power_domain_tree_locks` emits no WFI. -/
theorem hasWfi_release_locks (s : PsciState) (end_power_level : Nat) (parent_nodes : List Nat) :
    hasWfi (hv_psci_release_power_domain_tree_locks s end_power_level parent_nodes) = false :=
  hasWfi_releaseLoop s parent_nodes end_power_level

/-- C7: a slow-path suspend that reads a non-zero `ISR_EL1` after taking the
tree locks aborts: it releases the locks, returns `PSCI_STATUS_SUCCESS`
with the shared state exactly as it was (no requested-state entry and no
node's local power state modified), and its trace — the acquires followed by
the releases — contains no WFI. -/
theorem c7_pending_interrupt_aborts_suspend (env : Env) (s : PsciState)
    (end_power_level is_power_down_state : Nat) (info : List Nat)
    (hisr : env.isr ≠ 0) :
    hv_psci_start_cpu_suspend env end_power_level info is_power_down_state s =
      Res.ok PSCI_STATUS_SUCCESS s
        (hv_psci_acquire_power_domain_tree_locks s end_power_level
            (hv_psci_get_parent_nodes s env.cpu end_power_level) ++
          hv_psci_release_power_domain_tree_locks s end_power_level
            (hv_psci_get_parent_nodes s env.cpu end_power_level)) ∧
    hasWfi (hv_psci_acquire_power_domain_tree_locks s end_power_level
            (hv_psci_get_parent_nodes s env.cpu end_power_level) ++
          hv_psci_release_power_domain_tree_locks s end_power_level
            (hv_psci_get_parent_nodes s env.cpu end_power_level)) = false := by
  constructor
  · unfold hv_psci_start_cpu_suspend
    rw [if_pos hisr]
  · rw [hasWfi_append, hasWfi_acquire_locks, hasWfi_release_locks]
    rfl

/-- C7 (witness): core 0, pending interrupt, cluster-standby suspend request
to level 1 — the suspend aborts with `SUCCESS`, the state unchanged, and no
WFI. -/
theorem c7_pending_interrupt_aborts_suspend_witness :
    hv_psci_start_cpu_suspend envIsr 1 [1, 1, 0] 0 sOn0 =
      Res.ok PSCI_STATUS_SUCCESS sOn0
        (hv_psci_acquire_power_domain_tree_locks sOn0 1
            (hv_psci_get_parent_nodes sOn0 envIsr.cpu 1) ++
          hv_psci_release_power_domain_tree_locks sOn0 1
            (hv_psci_get_parent_nodes sOn0 envIsr.cpu 1)) ∧
    hasWfi (hv_psci_acquire_power_domain_tree_locks sOn0 1
            (hv_psci_get_parent_nodes sOn0 envIsr.cpu 1) ++
          hv_psci_release_power_domain_tree_locks sOn0 1
            (hv_psci_get_parent_nodes sOn0 envIsr.cpu 1)) = false :=
  c7_pending_interrupt_aborts_suspend envIsr sOn0 1 0 [1, 1, 0] (by decide)

/-- The whitelist scan succeeds exactly on the three non-zero entries of
`valid_idle_states`. -/
theorem validStateScan_iff (ps : Nat) :
    validStateScan ps valid_idle_states = true ↔
      ps ∈ ([0x1, 0x11, 0x40000222] : List Nat) := by
  by_cases h1 : ps = 0x1
  · subst h1; decide
  · by_cases h2 : ps = 0x11
    · subst h2; decide
    · by_cases h3 : ps = 0x40000222
      · subst h3; decide
      · simp [validStateScan, valid_idle_states, h1, h2, h3]

/-- `hv_psci_validate_power_state` rejects any value that trips the
reserved-bits sanity check or is not in the whitelist. -/
theorem validate_power_state_invalid (ps : Nat)
    (hbad : ps &&& PSCI_STATE_VALID_MASK ≠ 0 ∨
      ps ∉ ([0x1, 0x11, 0x40000222] : List Nat)) :
    hv_psci_validate_power_state ps = none := by
  unfold hv_psci_validate_power_state
  by_cases hm : hv_psci_power_state_sanity_check ps ≠ 0
  · rw [if_pos hm]
  · rw [if_neg hm]
    have hscan : validStateScan ps valid_idle_states = false := by
      cases hv : validStateScan ps valid_idle_states with
      | false => rfl
      | true =>
          exfalso
          have hmem := (validStateScan_iff ps).1 hv
          rcases hbad with h | h
          · exact hm (by unfold hv_psci_power_state_sanity_check; exact h)
          · exact h hmem
    rw [hscan]
    rfl

/-- The per-level extraction of `hv_psci_validate_power_state`, computed. -/
theorem extractLoop_spec (id : Nat) :
    extractLoop PSCI_CPU_POWER_LEVEL id (PSCI_MAX_POWER_LEVEL + 1) [PSCI_ON_STATE, 0, 0] =
      [id &&& PLAT_LOCAL_PSTATE_MASK, (id >>> PLAT_LOCAL_PSTATE_WIDTH) &&& PLAT_LOCAL_PSTATE_MASK,
        ((id >>> PLAT_LOCAL_PSTATE_WIDTH) >>> PLAT_LOCAL_PSTATE_WIDTH) &&&
          PLAT_LOCAL_PSTATE_MASK] := by
  show extractLoop 0 id 3 [0, 0, 0] = _
  simp [extractLoop, List.set]

/-- C8: a `power_state` that trips the reserved-bits check
(`PSCI_STATE_VALID_MASK = 0xB0000000`) or is not one of the whitelisted
`valid_idle_states` encodings makes `hv_psci_validate_power_state` fail, so
`hv_psci_suspend_cpu` returns `INVALID_PARAMETERS` with nothing else done,
and the SMC32 dispatcher delivers `-2` (as a 64-bit value) in X0; and any
`power_state` that does validate is in the whitelist and is unpacked into
one 4-bit local state per level with packing width
`PLAT_LOCAL_PSTATE_WIDTH = 4`. -/
theorem c8_invalid_power_state_rejected (ps : Nat) :
    (ps < 2 ^ 32 →
      (ps &&& PSCI_STATE_VALID_MASK ≠ 0 ∨ ps ∉ ([0x1, 0x11, 0x40000222] : List Nat)) →
      hv_psci_validate_power_state ps = none ∧
      (∀ (env : Env) (s : PsciState) (e c : Nat),
        hv_psci_suspend_cpu env s ps e c = Res.ok PSCI_STATUS_INVALID_PARAMETERS s []) ∧
      (∀ (env : Env) (s : PsciState) (x2 x3 : Nat),
        hv_handle_psci_smc env ⟨[PSCI_SUSPEND_CPU_ARM32_FUNCTION_ID, ps, x2, x3]⟩ s =
          SmcOutcome.ret true
            ⟨[u64ofInt PSCI_STATUS_INVALID_PARAMETERS, ps, x2, x3]⟩ s [])) ∧
    (∀ info, hv_psci_validate_power_state ps = some info →
      ps ∈ ([0x1, 0x11, 0x40000222] : List Nat) ∧
      ∀ i, i < 3 → info.getD i 0 =
        (ps &&& PSCI_STATE_ID_MASK) >>> (PLAT_LOCAL_PSTATE_WIDTH * i) &&&
          PLAT_LOCAL_PSTATE_MASK) := by
  constructor
  · intro hps hbad
    have hnone := validate_power_state_invalid ps hbad
    have hsusp : ∀ (env : Env) (s : PsciState) (e c : Nat),
        hv_psci_suspend_cpu env s ps e c = Res.ok PSCI_STATUS_INVALID_PARAMETERS s [] := by
      intro env s e c
      unfold hv_psci_suspend_cpu
      rw [Nat.mod_eq_of_lt hps, hnone]
    refine ⟨hnone, hsusp, ?_⟩
    intro env s x2 x3
    unfold hv_handle_psci_smc
    simp only [List.getD_cons_zero, List.getD_cons_succ]
    rw [if_pos (by decide), if_neg (by decide), if_pos (by trivial), Nat.mod_eq_of_lt hps,
      hsusp env s _ _]
    rfl
  · intro info hv
    unfold hv_psci_validate_power_state at hv
    by_cases hm : hv_psci_power_state_sanity_check ps ≠ 0
    · rw [if_pos hm] at hv
      exact absurd hv (by simp)
    · rw [if_neg hm] at hv
      cases hscan : validStateScan ps valid_idle_states with
      | false => rw [hscan] at hv; exact absurd hv (by simp)
      | true =>
          rw [hscan] at hv
          simp only [Bool.not_true, Bool.false_eq_true, if_false, Option.some.injEq] at hv
          refine ⟨(validStateScan_iff ps).1 hscan, ?_⟩
          intro i hi
          rw [← hv]
          unfold hv_psci_power_state_get_id
          rw [extractLoop_spec (ps &&& PSCI_STATE_ID_MASK)]
          interval_cases i
          · simp
          · simp [Nat.mul_one]
          · rw [show PLAT_LOCAL_PSTATE_WIDTH * 2 =
              PLAT_LOCAL_PSTATE_WIDTH + PLAT_LOCAL_PSTATE_WIDTH from rfl,
              Nat.shiftRight_add]
            rfl

/-- C8 (witness): `power_state = 0xF` is rejected — `hv_psci_suspend_cpu`
returns `-2` and `SMC(0x84000001, 0xF)` puts `-2` (`0xFFFFFFFFFFFFFFFE`)
into X0 — while the whitelisted `0x1` unpacks into `[1, 0, 0]`. -/
theorem c8_invalid_power_state_rejected_witness :
    hv_psci_suspend_cpu env0 sOn0 0xF 0 0 = Res.ok PSCI_STATUS_INVALID_PARAMETERS sOn0 [] ∧
    hv_handle_psci_smc env0 ⟨[PSCI_SUSPEND_CPU_ARM32_FUNCTION_ID, 0xF, 0, 0]⟩ sOn0 =
      SmcOutcome.ret true ⟨[u64ofInt PSCI_STATUS_INVALID_PARAMETERS, 0xF, 0, 0]⟩ sOn0 [] ∧
    (∀ i, i < 3 → ([1, 0, 0] : List Nat).getD i 0 =
      (0x1 &&& PSCI_STATE_ID_MASK) >>> (PLAT_LOCAL_PSTATE_WIDTH * i) &&&
        PLAT_LOCAL_PSTATE_MASK) := by
  have hbadpart := (c8_invalid_power_state_rejected 0xF).1 (by decide) (Or.inr (by decide))
  have hokpart := (c8_invalid_power_state_rejected 0x1).2 [1, 0, 0] (by decide)
  exact ⟨hbadpart.2.1 env0 sOn0 0 0, hbadpart.2.2 env0 sOn0 0 0, hokpart.2⟩

/-- C10: `hv_handle_psci_smc` never returns `false`: whatever the function
ID in X0 (known or unknown, SMC32 or SMC64), any normal return carries
`true`, so the `EC = SMC` branch of `hv_exc_sync` never falls through to the
generic system-register / data-abort / proxy path, and whenever the guest is
resumed its `ELR` has been advanced by exactly 4 past the SMC. -/
theorem c10_smc_always_handled (env : Env) (ctx : Ctx) (elr : Nat) (s : PsciState) :
    SmcOutcome.isRetFalse (hv_handle_psci_smc env ctx s) = false ∧
    SyncOutcome.isFellThrough (hv_exc_sync_smc env ctx elr s) = false ∧
    (∀ (ctx1 : Ctx) (elr1 : Nat) (s1 : PsciState) (tr : List Event),
      hv_exc_sync_smc env ctx elr s = SyncOutcome.resumed ctx1 elr1 s1 tr →
      elr1 = (elr + 4) % 2 ^ 64) := by
  have hmain : SmcOutcome.isRetFalse (hv_handle_psci_smc env ctx s) = false := by
    unfold hv_handle_psci_smc
    dsimp only
    repeat' split
    all_goals rfl
  refine ⟨hmain, ?_, ?_⟩
  · unfold hv_exc_sync_smc
    cases h : hv_handle_psci_smc env ctx s with
    | ret handled ctx1 s1 tr =>
        rw [h] at hmain
        cases handled with
        | false => exact absurd hmain (by simp [SmcOutcome.isRetFalse])
        | true => rfl
    | panicked s1 tr => rfl
    | noReturn s1 tr => rfl
  · intro ctx1 elr1 s1 tr hres
    unfold hv_exc_sync_smc at hres
    cases h : hv_handle_psci_smc env ctx s with
    | ret handled ctx2 s2 tr2 =>
        rw [h] at hres hmain
        cases handled with
        | false => exact absurd hmain (by simp [SmcOutcome.isRetFalse])
        | true =>
            simp only [if_pos] at hres
            injection hres with h1 h2 h3 h4
            exact h2.symm
    | panicked s2 tr2 =>
        rw [h] at hres
        exact SyncOutcome.noConfusion hres
    | noReturn s2 tr2 =>
        rw [h] at hres
        exact SyncOutcome.noConfusion hres

/-- C10 (witness): the unknown SMC32 ID `0x84000099` is handled, resuming
the guest at `ELR + 4`. -/
theorem c10_smc_always_handled_witness :
    SmcOutcome.isRetFalse (hv_handle_psci_smc env0 ⟨[0x84000099, 0, 0, 0]⟩ sBoot) = false ∧
    SyncOutcome.isFellThrough (hv_exc_sync_smc env0 ⟨[0x84000099, 0, 0, 0]⟩ 0x1000 sBoot) =
      false ∧
    (0x1004 : Nat) = (0x1000 + 4) % 2 ^ 64 := by
  have h := c10_smc_always_handled env0 ⟨[0x84000099, 0, 0, 0]⟩ 0x1000 sBoot
  exact ⟨h.1, h.2.1,
    h.2.2 ⟨[0xFFFFFFFFFFFFFFFF, 0, 0, 0]⟩ 0x1004 sBoot [] (by decide)⟩

/-- Core 0's parent nodes on the freshly populated T8103 tree: its cluster
(node 1) and the root (node 0). -/
theorem t8103_parent_nodes_cpu0 :
    hv_psci_get_parent_nodes (treeAfterPopulate apple_t8103_power_domain_tree_descriptor) 0
      PSCI_MAX_POWER_LEVEL = [1, 0] := by decide

/-- One step of the CPU loop of `hv_psci_update_power_level_limits`. -/
theorem updateLimitsLoop_succ (cpu r : Nat) (nodes : List Nat) (s : PsciState) :
    updateLimitsLoop cpu (r + 1) nodes s =
      updateLimitsLoop (cpu + 1) r (updateLimitsCpu cpu nodes s).1
        (updateLimitsCpu cpu nodes s).2 := rfl

set_option maxHeartbeats 8000000 in
/-- Processing CPU 0 in `hv_psci_update_power_level_limits` produces the
same result whatever the two uninitialised `nodes_index` entries held: a
skipped `first_cpu_idx` write happens only when the stale entry equals the
real ancestor index, and the skipped write would have stored the value (0)
the zero-initialised field already holds. -/
theorem updateLimitsCpu0_t8103 (g1 g2 : Nat) :
    updateLimitsCpu 0 [g1, g2] (treeAfterPopulate apple_t8103_power_domain_tree_descriptor) =
      updateLimitsCpu 0 [3, 4] (treeAfterPopulate apple_t8103_power_domain_tree_descriptor) := by
  unfold updateLimitsCpu
  rw [t8103_parent_nodes_cpu0]
  rcases eq_or_ne g2 0 with h2 | h2 <;> rcases eq_or_ne g1 1 with h1 | h1
  · subst h1; subst h2; decide
  · subst h2
    simp only [updateLimitsJLoop, List.getD_cons_zero, List.getD_cons_succ, PSCI_MAX_POWER_LEVEL]
    norm_num [Ne.symm h1]
    decide
  · subst h1
    simp only [updateLimitsJLoop, List.getD_cons_zero, List.getD_cons_succ, PSCI_MAX_POWER_LEVEL]
    norm_num [Ne.symm h2]
    decide
  · simp only [updateLimitsJLoop, List.getD_cons_zero, List.getD_cons_succ, PSCI_MAX_POWER_LEVEL]
    norm_num [Ne.symm h1, Ne.symm h2]

/-- The full limits pass on the T8103 tree does not depend on the
uninitialised `nodes_index` contents. -/
theorem treeAfterInit_t8103_garbage (g1 g2 : Nat) :
    treeAfterInit apple_t8103_power_domain_tree_descriptor [g1, g2] =
      treeAfterInit apple_t8103_power_domain_tree_descriptor [3, 4] := by
  show hv_psci_update_power_level_limits [g1, g2]
      (treeAfterPopulate apple_t8103_power_domain_tree_descriptor) =
    hv_psci_update_power_level_limits [3, 4]
      (treeAfterPopulate apple_t8103_power_domain_tree_descriptor)
  unfold hv_psci_update_power_level_limits
  rw [show (treeAfterPopulate apple_t8103_power_domain_tree_descriptor).num_cores = 7 + 1
    from by decide]
  rw [updateLimitsLoop_succ 0 7 [g1, g2], updateLimitsLoop_succ 0 7 [3, 4],
    updateLimitsCpu0_t8103]

/-- C9: after `hv_psci_update_power_level_limits` has run over every CPU of
the T8103 tree — whatever the two uninitialised `nodes_index` cells held —
every non-CPU node `n` has `first_cpu_idx` equal to the lowest CPU index
whose parent walk traverses `n`, and `num_cpu_siblings` equal to the number
of such CPUs. -/
theorem c9_first_cpu_idx_and_sibling_counts (g1 g2 n : Nat) (hn : n < 3) :
    (cpusTraversing (treeAfterInit apple_t8103_power_domain_tree_descriptor [g1, g2]) n).min? =
      some (getNonCpu (treeAfterInit apple_t8103_power_domain_tree_descriptor [g1, g2])
        n).first_cpu_idx ∧
    (cpusTraversing (treeAfterInit apple_t8103_power_domain_tree_descriptor [g1, g2]) n).length =
      (getNonCpu (treeAfterInit apple_t8103_power_domain_tree_descriptor [g1, g2])
        n).num_cpu_siblings := by
  rw [treeAfterInit_t8103_garbage g1 g2]
  interval_cases n
  · decide
  · decide
  · decide

/-- C9 (witness): with concrete stale `nodes_index` contents `[9, 9]` and
the cluster node 1, the lowest traversing CPU is 0 and four CPUs traverse
it. -/
theorem c9_first_cpu_idx_and_sibling_counts_witness :
    (cpusTraversing (treeAfterInit apple_t8103_power_domain_tree_descriptor [9, 9]) 1).min? =
      some (getNonCpu (treeAfterInit apple_t8103_power_domain_tree_descriptor [9, 9])
        1).first_cpu_idx ∧
    (cpusTraversing (treeAfterInit apple_t8103_power_domain_tree_descriptor [9, 9]) 1).length =
      (getNonCpu (treeAfterInit apple_t8103_power_domain_tree_descriptor [9, 9])
        1).num_cpu_siblings :=
  c9_first_cpu_idx_and_sibling_counts 9 9 1 (by decide)

/-- C5 (counterexample): a `cpu_on` whose target MPIDR (`0x9999`) matches no
stored `reg_value` on the post-init T8103 state does not return
`INVALID_PARAMETERS` to the guest: `hv_psci_translate_mpidr_to_cpu` panics,
so `hv_psci_turn_on_cpu` produces a panic and the dispatcher never returns
to write any value into X0. -/
theorem c5_unknown_mpidr_panics :
    hv_psci_turn_on_cpu env0 sBoot 0x9999 0x8000 0 = Res.panicked sBoot [] ∧
    hv_handle_psci_smc env0 ⟨[0x84000003, 0x9999, 0x8000, 0]⟩ sBoot =
      SmcOutcome.panicked sBoot [] ∧
    SmcOutcome.isRet (hv_handle_psci_smc env0 ⟨[0x84000003, 0x9999, 0x8000, 0]⟩ sBoot)
      = false := by
  decide

end HvPsci
